import Mathlib

/-!
# ARM core of the emulator (`src/desmume/src/armcpu.cpp`)

A shallow embedding of the CPU execution engine: the register file with its
mode banks, `armcpu_switchMode`, the fetch stage `armcpu_prefetch`,
`armcpu_init`, the exception entries `armcpu_exception` and
`armcpu_irqException`, and `setIF`.

Conventions.
* A `u32` is a `Nat`; every arithmetic result that C would truncate is
  reduced `% 2^32` where it is computed, and the masks `& 0xFFFFFFFC`,
  `& 0xFFFFFFFE`, `& 0x1F` are written out.
* `armcpu.cpp` works on the two global cores `NDS_ARM9` and `NDS_ARM7`
  (macro `ARMPROC`), on `MMU.reg_IF_bits`, and calls `NDS_Reschedule`,
  `emu_halt` and `printf`.  The machine state `NDS` holds all of that, a
  `armcpu_t *` is a value of `armcpu_ptr`, and every function is a state
  transformer `NDS → result × NDS`.
-/

namespace Desmume

/-! ## Data model -/

/-- Modelled from the spec: the `Mode` enumeration of `armcpu.h` is not among
the sources; the spec names the seven modes and the values are those of the
ARM architecture (the 5-bit mode field of the status register). -/
def USR : Nat := 0x10
/-- Modelled from the spec: fast-interrupt mode of the `Mode` enumeration. -/
def FIQ : Nat := 0x11
/-- Modelled from the spec: IRQ mode of the `Mode` enumeration. -/
def IRQ : Nat := 0x12
/-- Modelled from the spec: supervisor mode of the `Mode` enumeration. -/
def SVC : Nat := 0x13
/-- Modelled from the spec: abort mode of the `Mode` enumeration. -/
def ABT : Nat := 0x17
/-- Modelled from the spec: undefined mode of the `Mode` enumeration. -/
def UND : Nat := 0x1B
/-- Modelled from the spec: system mode of the `Mode` enumeration. -/
def SYS : Nat := 0x1F

/-- Modelled from the spec: the exception kinds of `armcpu.h` (not among the
sources); each kind is its own vector offset. -/
def EXCEPTION_RESET : Nat := 0x00
/-- Modelled from the spec: undefined-instruction exception kind. -/
def EXCEPTION_UNDEFINED_INSTRUCTION : Nat := 0x04
/-- Modelled from the spec: software-interrupt exception kind. -/
def EXCEPTION_SWI : Nat := 0x08
/-- Modelled from the spec: prefetch-abort exception kind. -/
def EXCEPTION_PREFETCH_ABORT : Nat := 0x0C
/-- Modelled from the spec: data-abort exception kind. -/
def EXCEPTION_DATA_ABORT : Nat := 0x10
/-- Modelled from the spec: the reserved exception kind. -/
def EXCEPTION_RESERVED_0x14 : Nat := 0x14
/-- Modelled from the spec: IRQ exception kind. -/
def EXCEPTION_IRQ : Nat := 0x18
/-- Modelled from the spec: fast-IRQ exception kind. -/
def EXCEPTION_FAST_IRQ : Nat := 0x1C

/-- Modelled from the spec: the union `Status_Reg` of `armcpu.h` is not among
the sources.  This is its `bits` view: the 5-bit `mode`, the flags `T`, `F`,
`I`, the 19 reserved bits `RAZ`, and the flags `Q`, `V`, `C`, `Z`, `N`, from
the least significant bit upwards.  A one-bit field is a `Bool`. -/
structure Status_Reg where
  mode : Nat
  T : Bool
  F : Bool
  I : Bool
  RAZ : Nat
  Q : Bool
  V : Bool
  C : Bool
  Z : Bool
  N : Bool
deriving DecidableEq

/-- The `val` view of the union `Status_Reg`: the 32-bit word the bit fields
make up. -/
def Status_Reg.val (r : Status_Reg) : Nat :=
  r.mode % 32 + 2 ^ 5 * r.T.toNat + 2 ^ 6 * r.F.toNat + 2 ^ 7 * r.I.toNat
    + 2 ^ 8 * (r.RAZ % 2 ^ 19) + 2 ^ 27 * r.Q.toNat + 2 ^ 28 * r.V.toNat
    + 2 ^ 29 * r.C.toNat + 2 ^ 30 * r.Z.toNat + 2 ^ 31 * r.N.toNat

/-- An assignment to the `val` view of the union `Status_Reg`
(`CPSR.val = ...`): the bit fields of the word `v`. -/
def Status_Reg.ofVal (v : Nat) : Status_Reg :=
  { mode := v % 32
    T := v.testBit 5
    F := v.testBit 6
    I := v.testBit 7
    RAZ := v / 2 ^ 8 % 2 ^ 19
    Q := v.testBit 27
    V := v.testBit 28
    C := v.testBit 29
    Z := v.testBit 30
    N := v.testBit 31 }

/-- The macro `BIT0` of `utils/bits.h`: `((i) & 1)`. -/
def BIT0 (i : Nat) : Nat := i &&& 1

/-- A store into the array `R[16]`. -/
def writeR (R : Fin 16 → Nat) (i : Fin 16) (v : Nat) : Fin 16 → Nat :=
  fun j => if j = i then v else R j

/-- Modelled from the spec: `struct armcpu_t` of `armcpu.h` is not among the
sources; these are the fields `armcpu.cpp` reads and writes.  The two
interface tables (function pointers) are left out; the post-execute hook is a
handle, `none` for `NULL`. -/
structure armcpu_t where
  proc_ID : Nat
  instruction : Nat
  instruct_adr : Nat
  next_instruction : Nat
  R : Fin 16 → Nat
  CPSR : Status_Reg
  SPSR : Status_Reg
  R13_usr : Nat
  R14_usr : Nat
  R13_svc : Nat
  R14_svc : Nat
  R13_abt : Nat
  R14_abt : Nat
  R13_und : Nat
  R14_und : Nat
  R13_irq : Nat
  R14_irq : Nat
  R8_fiq : Nat
  R9_fiq : Nat
  R10_fiq : Nat
  R11_fiq : Nat
  R12_fiq : Nat
  R13_fiq : Nat
  R14_fiq : Nat
  SPSR_svc : Status_Reg
  SPSR_abt : Status_Reg
  SPSR_und : Status_Reg
  SPSR_irq : Status_Reg
  SPSR_fiq : Status_Reg
  intVector : Nat
  LDTBit : Nat
  waitIRQ : Bool
  halt_IE_and_IF : Bool
  intrWaitARM_state : Nat
  stalled : Nat
  post_ex_fn : Option Nat
  post_ex_fn_data : Option Nat

/-- What the program prints with `printf`. -/
inductive Printed where
  | STALL
  | UNSTALL
  | switchMode_WRONG_mode (mode : Nat)
  | armcpu_exception
deriving DecidableEq

/-- Modelled from the spec: the collaborators of the core that
`armcpu.cpp` only calls.  `_MMU_read32`/`_MMU_read16` are the code fetches of
the memory interface (`fetch32`, `fetch16`), `MMU_codeFetchCycles32`/`16` the
fetch cost it reports, `MMU_fetchExecuteCycles` the timing combinator; the
first argument is the core number `PROCNUM`. -/
structure MemoryLayer where
  _MMU_read32 : Nat → Nat → Nat
  _MMU_read16 : Nat → Nat → Nat
  MMU_codeFetchCycles32 : Nat → Nat → Nat
  MMU_codeFetchCycles16 : Nat → Nat → Nat
  MMU_fetchExecuteCycles : Nat → Nat → Nat → Nat

/-- The global state `armcpu.cpp` works on: the two cores `NDS_ARM9` and
`NDS_ARM7`, the pending-interrupt masks `MMU.reg_IF_bits[2]`, whether the
emulation still runs (`emu_halt` clears `execute`), how often
`NDS_Reschedule` was called, and the text printed so far. -/
structure NDS where
  NDS_ARM9 : armcpu_t
  NDS_ARM7 : armcpu_t
  reg_IF_bits : Fin 2 → Nat
  execute : Bool
  reschedules : Nat
  printed : List Printed

/-- A value of type `armcpu_t *`: the address of one of the two global
cores. -/
inductive armcpu_ptr where
  | NDS_ARM9
  | NDS_ARM7
deriving DecidableEq

/-- The macro `ARMPROC` of `armcpu.h`: `(PROCNUM ? NDS_ARM7 : NDS_ARM9)`. -/
def ARMPROC (PROCNUM : Nat) : armcpu_ptr :=
  if PROCNUM ≠ 0 then armcpu_ptr.NDS_ARM7 else armcpu_ptr.NDS_ARM9

/-- Dereference `*p`. -/
def NDS.core (s : NDS) (p : armcpu_ptr) : armcpu_t :=
  match p with
  | armcpu_ptr.NDS_ARM9 => s.NDS_ARM9
  | armcpu_ptr.NDS_ARM7 => s.NDS_ARM7

/-- Store through `p`: `*p = c`. -/
def NDS.setCore (s : NDS) (p : armcpu_ptr) (c : armcpu_t) : NDS :=
  match p with
  | armcpu_ptr.NDS_ARM9 => { s with NDS_ARM9 := c }
  | armcpu_ptr.NDS_ARM7 => { s with NDS_ARM7 := c }

/-- Modelled from the spec: `NDS_Reschedule` is the scheduler hook
`notifyStateChanged()`, a fire-and-forget signal; here it is counted. -/
def NDS_Reschedule (s : NDS) : NDS :=
  { s with reschedules := s.reschedules + 1 }

/-- Modelled from the spec: `emu_halt` halts the emulated machine; here it
clears `execute`. -/
def emu_halt (s : NDS) : NDS :=
  { s with execute := false }

/-- The call `printf(...)`. -/
def printf (t : Printed) (s : NDS) : NDS :=
  { s with printed := s.printed ++ [t] }

/-- The method `armcpu_t::changeCPSR`: all it does is `NDS_Reschedule()`. -/
def changeCPSR (s : NDS) : NDS :=
  NDS_Reschedule s

/-! ## `armcpu_switchMode` -/

/-- The first `switch` of `armcpu_switchMode`, `switch(oldmode)`: the live
registers of the departing mode go to its bank. -/
def switchMode_save (oldmode : Nat) (armcpu : armcpu_t) : armcpu_t :=
  if oldmode = USR ∨ oldmode = SYS then
    { armcpu with R13_usr := armcpu.R 13, R14_usr := armcpu.R 14 }
  else if oldmode = FIQ then
    { armcpu with
      R := writeR (writeR (writeR (writeR (writeR armcpu.R
            8 armcpu.R8_fiq) 9 armcpu.R9_fiq) 10 armcpu.R10_fiq)
            11 armcpu.R11_fiq) 12 armcpu.R12_fiq
      R8_fiq := armcpu.R 8
      R9_fiq := armcpu.R 9
      R10_fiq := armcpu.R 10
      R11_fiq := armcpu.R 11
      R12_fiq := armcpu.R 12
      R13_fiq := armcpu.R 13
      R14_fiq := armcpu.R 14
      SPSR_fiq := armcpu.SPSR }
  else if oldmode = IRQ then
    { armcpu with R13_irq := armcpu.R 13, R14_irq := armcpu.R 14, SPSR_irq := armcpu.SPSR }
  else if oldmode = SVC then
    { armcpu with R13_svc := armcpu.R 13, R14_svc := armcpu.R 14, SPSR_svc := armcpu.SPSR }
  else if oldmode = ABT then
    { armcpu with R13_abt := armcpu.R 13, R14_abt := armcpu.R 14, SPSR_abt := armcpu.SPSR }
  else if oldmode = UND then
    { armcpu with R13_und := armcpu.R 13, R14_und := armcpu.R 14, SPSR_und := armcpu.SPSR }
  else armcpu

/-- The second `switch` of `armcpu_switchMode`, `switch(mode)`, without its
`default` branch: the bank of the target mode goes to the live registers. -/
def switchMode_load (mode : Nat) (armcpu : armcpu_t) : armcpu_t :=
  if mode = USR ∨ mode = SYS then
    { armcpu with R := writeR (writeR armcpu.R 13 armcpu.R13_usr) 14 armcpu.R14_usr }
  else if mode = FIQ then
    { armcpu with
      R := writeR (writeR (writeR (writeR (writeR (writeR (writeR armcpu.R
            8 armcpu.R8_fiq) 9 armcpu.R9_fiq) 10 armcpu.R10_fiq)
            11 armcpu.R11_fiq) 12 armcpu.R12_fiq) 13 armcpu.R13_fiq) 14 armcpu.R14_fiq
      R8_fiq := armcpu.R 8
      R9_fiq := armcpu.R 9
      R10_fiq := armcpu.R 10
      R11_fiq := armcpu.R 11
      R12_fiq := armcpu.R 12
      SPSR := armcpu.SPSR_fiq }
  else if mode = IRQ then
    { armcpu with
      R := writeR (writeR armcpu.R 13 armcpu.R13_irq) 14 armcpu.R14_irq
      SPSR := armcpu.SPSR_irq }
  else if mode = SVC then
    { armcpu with
      R := writeR (writeR armcpu.R 13 armcpu.R13_svc) 14 armcpu.R14_svc
      SPSR := armcpu.SPSR_svc }
  else if mode = ABT then
    { armcpu with
      R := writeR (writeR armcpu.R 13 armcpu.R13_abt) 14 armcpu.R14_abt
      SPSR := armcpu.SPSR_abt }
  else if mode = UND then
    { armcpu with
      R := writeR (writeR armcpu.R 13 armcpu.R13_und) 14 armcpu.R14_und
      SPSR := armcpu.SPSR_und }
  else armcpu

/-- Whether `switch(mode)` takes one of its seven `case` labels. -/
def recognisedMode (mode : Nat) : Bool :=
  mode = USR || mode = SYS || mode = FIQ || mode = IRQ || mode = SVC || mode = ABT
    || mode = UND

/-- The function `armcpu_switchMode(armcpu_t *armcpu, u8 mode)`; the result
is `oldmode`. -/
def armcpu_switchMode (armcpu : armcpu_ptr) (mode : Nat) (s : NDS) : Nat × NDS :=
  let oldmode := (s.core armcpu).CPSR.mode
  let s := s.setCore armcpu (switchMode_save oldmode (s.core armcpu))
  let s := s.setCore armcpu (switchMode_load mode (s.core armcpu))
  let s := if recognisedMode mode then s else printf (Printed.switchMode_WRONG_mode mode) s
  let s := s.setCore armcpu
    { s.core armcpu with CPSR := { (s.core armcpu).CPSR with mode := mode &&& 0x1F } }
  let s := changeCPSR s
  (oldmode, s)

/-! ## `armcpu_prefetch` -/

/-- The template `armcpu_prefetch<PROCNUM>()`; it works on the global core
`ARMPROC` and returns the fetch cost.  In the compact branch the test for the
zero-cost fetch reads `armcpu->instruct_adr` after the assignment
`armcpu->instruct_adr = curInstruction`, as the source does. -/
def armcpu_prefetch (mem : MemoryLayer) (PROCNUM : Nat) (s : NDS) : Nat × NDS :=
  let armcpu := ARMPROC PROCNUM
  let curInstruction := (s.core armcpu).next_instruction
  if (s.core armcpu).CPSR.T = false then
    let curInstruction := curInstruction &&& 0xFFFFFFFC
    let s := s.setCore armcpu
      { s.core armcpu with
        instruct_adr := curInstruction
        next_instruction := (curInstruction + 4) % 2 ^ 32
        R := writeR (s.core armcpu).R 15 ((curInstruction + 8) % 2 ^ 32)
        instruction := mem._MMU_read32 PROCNUM curInstruction }
    (mem.MMU_codeFetchCycles32 PROCNUM curInstruction, s)
  else
    let curInstruction := curInstruction &&& 0xFFFFFFFE
    let s := s.setCore armcpu
      { s.core armcpu with
        instruct_adr := curInstruction
        next_instruction := (curInstruction + 2) % 2 ^ 32
        R := writeR (s.core armcpu).R 15 ((curInstruction + 4) % 2 ^ 32)
        instruction := mem._MMU_read16 PROCNUM curInstruction }
    if PROCNUM = 0 then
      if ¬(curInstruction = ((s.core armcpu).instruct_adr + 2) % 2 ^ 32
            ∧ curInstruction &&& 2 ≠ 0) then
        (mem.MMU_codeFetchCycles32 PROCNUM curInstruction, s)
      else
        (0, s)
    else
      (mem.MMU_codeFetchCycles16 PROCNUM curInstruction, s)

/-- The overload `armcpu_prefetch(armcpu_t *armcpu)`: it selects the
template instance by `armcpu->proc_ID`. -/
def armcpu_prefetch_ptr (mem : MemoryLayer) (armcpu : armcpu_ptr) (s : NDS) : Nat × NDS :=
  if (s.core armcpu).proc_ID = 0 then armcpu_prefetch mem 0 s
  else armcpu_prefetch mem 1 s

/-! ## `armcpu_init` -/

/-- The function `armcpu_init(armcpu_t *armcpu, u32 adr)`.  The copy of the
condition table, compiled on one platform only, is left out with the field
it fills. -/
def armcpu_init (mem : MemoryLayer) (armcpu : armcpu_ptr) (adr : Nat) (s : NDS) : NDS :=
  let c := s.core armcpu
  let s := s.setCore armcpu
    { c with
      LDTBit := if c.proc_ID = 0 then 1 else 0
      intVector := 0xFFFF0000 * (if c.proc_ID = 0 then 1 else 0)
      waitIRQ := false
      halt_IE_and_IF := false
      intrWaitARM_state := 0
      R := fun _ => 0
      CPSR := { Status_Reg.ofVal SYS with T := BIT0 adr != 0 }
      SPSR := Status_Reg.ofVal SYS
      R13_usr := 0
      R14_usr := 0
      R13_svc := 0
      R14_svc := 0
      R13_abt := 0
      R14_abt := 0
      R13_und := 0
      R14_und := 0
      R13_irq := 0
      R14_irq := 0
      R8_fiq := 0
      R9_fiq := 0
      R10_fiq := 0
      R11_fiq := 0
      R12_fiq := 0
      R13_fiq := 0
      R14_fiq := 0
      SPSR_svc := Status_Reg.ofVal 0
      SPSR_abt := Status_Reg.ofVal 0
      SPSR_und := Status_Reg.ofVal 0
      SPSR_irq := Status_Reg.ofVal 0
      SPSR_fiq := Status_Reg.ofVal 0
      next_instruction := adr &&& 0xFFFFFFFE }
  (armcpu_prefetch_ptr mem armcpu s).2

/-! ## Exception entry -/

/-- The `switch(number)` of `armcpu_exception`: the target mode, `USR` when
no `case` assigns one, and the call of `emu_halt` for the reserved kind. -/
def exception_mode (number : Nat) (s : NDS) : Nat × NDS :=
  if number = EXCEPTION_RESET then (SVC, s)
  else if number = EXCEPTION_UNDEFINED_INSTRUCTION then (UND, s)
  else if number = EXCEPTION_SWI then (SVC, s)
  else if number = EXCEPTION_PREFETCH_ABORT then (ABT, s)
  else if number = EXCEPTION_DATA_ABORT then (ABT, s)
  else if number = EXCEPTION_RESERVED_0x14 then (USR, emu_halt s)
  else if number = EXCEPTION_IRQ then (IRQ, s)
  else if number = EXCEPTION_FAST_IRQ then (FIQ, s)
  else (USR, s)

/-- The function `armcpu_exception(armcpu_t *cpu, u32 number)`. -/
def armcpu_exception (cpu : armcpu_ptr) (number : Nat) (s : NDS) : NDS :=
  let cpumode := (exception_mode number s).1
  let s := (exception_mode number s).2
  let tmp := (s.core cpu).CPSR
  let s := (armcpu_switchMode cpu cpumode s).2
  let s := s.setCore cpu
    { s.core cpu with R := writeR (s.core cpu).R 14 (s.core cpu).next_instruction }
  let s := s.setCore cpu { s.core cpu with SPSR := tmp }
  let s := s.setCore cpu { s.core cpu with CPSR := { (s.core cpu).CPSR with T := false } }
  let s := s.setCore cpu { s.core cpu with CPSR := { (s.core cpu).CPSR with I := true } }
  let s := changeCPSR s
  let s := s.setCore cpu
    { s.core cpu with R := writeR (s.core cpu).R 15 (((s.core cpu).intVector + number) % 2 ^ 32) }
  let s := s.setCore cpu { s.core cpu with next_instruction := (s.core cpu).R 15 }
  printf Printed.armcpu_exception s

/-- The function `armcpu_irqException(armcpu_t *armcpu)`; the result is
`TRUE`. -/
def armcpu_irqException (mem : MemoryLayer) (armcpu : armcpu_ptr) (s : NDS) : Bool × NDS :=
  let tmp := (s.core armcpu).CPSR
  let s := (armcpu_switchMode armcpu IRQ s).2
  let s := s.setCore armcpu
    { s.core armcpu with
      R := writeR (s.core armcpu).R 14 (((s.core armcpu).instruct_adr + 4) % 2 ^ 32) }
  let s := s.setCore armcpu { s.core armcpu with SPSR := tmp }
  let s := s.setCore armcpu
    { s.core armcpu with CPSR := { (s.core armcpu).CPSR with T := false } }
  let s := s.setCore armcpu
    { s.core armcpu with CPSR := { (s.core armcpu).CPSR with I := true } }
  let s := s.setCore armcpu
    { s.core armcpu with next_instruction := ((s.core armcpu).intVector + 0x18) % 2 ^ 32 }
  let s := s.setCore armcpu { s.core armcpu with waitIRQ := false }
  let s := (armcpu_prefetch_ptr mem armcpu s).2
  (true, s)

/-! ## `setIF` -/

/-- The function `setIF(int PROCNUM, u32 flag)` with its assertion compiled
in: `Except.error` is the failed `assert`, carrying the state the program is
aborted in; `Except.ok` is the state after the return. -/
def setIF (PROCNUM : Fin 2) (flag : Nat) (s : NDS) : Except NDS NDS :=
  if flag &&& 0x00200000 ≠ 0 then Except.error s
  else
    let s := { s with
      reg_IF_bits := fun i => if i = PROCNUM then s.reg_IF_bits i ||| flag else s.reg_IF_bits i }
    Except.ok (NDS_Reschedule s)

/-! ## Control interface -/

/-- The function `stall_cpu(void *instance)` of the default control
interface. -/
def stall_cpu (armcpu : armcpu_ptr) (s : NDS) : NDS :=
  let s := printf Printed.STALL s
  s.setCore armcpu { s.core armcpu with stalled := 1 }

/-- The function `unstall_cpu(void *instance)`. -/
def unstall_cpu (armcpu : armcpu_ptr) (s : NDS) : NDS :=
  let s := printf Printed.UNSTALL s
  s.setCore armcpu { s.core armcpu with stalled := 0 }

/-- The function `install_post_exec_fn(void *instance, ex_fn, fn_data)`; a
function or data pointer is a handle, `none` for `NULL`. -/
def install_post_exec_fn (armcpu : armcpu_ptr) (ex_fn fn_data : Option Nat) (s : NDS) : NDS :=
  let s := s.setCore armcpu { s.core armcpu with post_ex_fn := ex_fn }
  s.setCore armcpu { s.core armcpu with post_ex_fn_data := fn_data }

/-- The function `remove_post_exec_fn(void *instance)`. -/
def remove_post_exec_fn (armcpu : armcpu_ptr) (s : NDS) : NDS :=
  s.setCore armcpu { s.core armcpu with post_ex_fn := none }

/-- The function `read_cpu_reg(void *instance, u32 reg_num)`. -/
def read_cpu_reg (armcpu : armcpu_ptr) (reg_num : Nat) (s : NDS) : Nat × NDS :=
  if h : reg_num ≤ 14 then
    ((s.core armcpu).R ⟨reg_num, Nat.lt_of_le_of_lt h (by decide)⟩, s)
  else if reg_num = 15 then
    ((s.core armcpu).instruct_adr, s)
  else if reg_num = 16 then
    ((s.core armcpu).CPSR.val, s)
  else
    (0, s)

/-- The function `set_cpu_reg(void *instance, u32 reg_num, u32 value)`; the
branch for register 16 is empty in the source. -/
def set_cpu_reg (armcpu : armcpu_ptr) (reg_num value : Nat) (s : NDS) : NDS :=
  if h : reg_num ≤ 14 then
    s.setCore armcpu
      { s.core armcpu with
        R := writeR (s.core armcpu).R ⟨reg_num, Nat.lt_of_le_of_lt h (by decide)⟩ value }
  else if reg_num = 15 then
    s.setCore armcpu { s.core armcpu with next_instruction := value }
  else if reg_num = 16 then
    s
  else
    s

/-! ## `armcpu_Wait4IRQ`, `TRAPUNDEF`, `armcpu_exec` -/

/-- The function `armcpu_Wait4IRQ(armcpu_t *cpu)`. -/
def armcpu_Wait4IRQ (cpu : armcpu_ptr) (s : NDS) : Nat × NDS :=
  let s := s.setCore cpu { s.core cpu with waitIRQ := true }
  let s := s.setCore cpu { s.core cpu with halt_IE_and_IF := true }
  (1, s)

/-- Modelled from the spec: the constant `ARMCPU_ARM9` of `armcpu.h` (not
among the sources) is the identity tag of core A, `proc_ID` 0. -/
def ARMCPU_ARM9 : Nat := 0

/-- The function `TRAPUNDEF(armcpu_t *cpu)`, without its debug output. -/
def TRAPUNDEF (cpu : armcpu_ptr) (s : NDS) : Nat × NDS :=
  if xor (decide ((s.core cpu).intVector ≠ 0)) (decide ((s.core cpu).proc_ID = ARMCPU_ARM9)) then
    (4, armcpu_exception armcpu_ptr.NDS_ARM9 EXCEPTION_UNDEFINED_INSTRUCTION s)
  else
    (4, emu_halt s)

/-- Modelled from the spec: the macro `CONDITION` of `armcpu.h` (not among
the sources), the 4-bit condition field of a standard instruction. -/
def CONDITION (i : Nat) : Nat := i >>> 28

/-- Modelled from the spec: the macro `CODE` of `armcpu.h` (not among the
sources), bits 25 to 27 of a standard instruction. -/
def CODE (i : Nat) : Nat := (i >>> 25) &&& 0x7

/-- Modelled from the spec: the opcode tables and the decoding the core
calls but does not define.  `arm_instructions_set` and
`thumb_instructions_set` are the two dense handler tables (arguments: core
number, index, instruction; a handler works on the machine and returns its
execute cost), `INSTRUCTION_INDEX` the decode function of the standard
encoding, and `TEST_COND` the condition test (arguments: condition field,
`CODE` field, status register). -/
structure OpcodeTables where
  arm_instructions_set : Nat → Nat → Nat → NDS → Nat × NDS
  thumb_instructions_set : Nat → Nat → Nat → NDS → Nat × NDS
  INSTRUCTION_INDEX : Nat → Nat
  TEST_COND : Nat → Nat → Status_Reg → Bool

/-- The execute half of `armcpu_exec<PROCNUM>()`: the execute cost
`cExecute` and the machine after the handler, if one is called. -/
def exec_execute (ops : OpcodeTables) (PROCNUM : Nat) (s : NDS) : Nat × NDS :=
  let instruction := (s.core (ARMPROC PROCNUM)).instruction
  if (s.core (ARMPROC PROCNUM)).CPSR.T = false then
    if CONDITION instruction = 0x0E
        ∨ ops.TEST_COND (CONDITION instruction) (CODE instruction)
            (s.core (ARMPROC PROCNUM)).CPSR = true then
      ops.arm_instructions_set PROCNUM (ops.INSTRUCTION_INDEX instruction) instruction s
    else
      (1, s)
  else
    ops.thumb_instructions_set PROCNUM (instruction >>> 6) instruction s

/-- The template `armcpu_exec<PROCNUM>()` (the interpreter, without the
just-in-time path): execute, then `armcpu_prefetch<PROCNUM>()`, then
`MMU_fetchExecuteCycles<PROCNUM>(cExecute, cFetch)`. -/
def armcpu_exec (mem : MemoryLayer) (ops : OpcodeTables) (PROCNUM : Nat) (s : NDS) :
    Nat × NDS :=
  let cExecute := (exec_execute ops PROCNUM s).1
  let s := (exec_execute ops PROCNUM s).2
  let cFetch := (armcpu_prefetch mem PROCNUM s).1
  let s := (armcpu_prefetch mem PROCNUM s).2
  (mem.MMU_fetchExecuteCycles PROCNUM cExecute cFetch, s)

/-! ## Condition predicates (compiled out in the source by `#if 0`) -/

/-- The function `test_EQ`. -/
def test_EQ (CPSR : Status_Reg) : Bool := CPSR.Z
/-- The function `test_NE`. -/
def test_NE (CPSR : Status_Reg) : Bool := !CPSR.Z
/-- The function `test_CS`. -/
def test_CS (CPSR : Status_Reg) : Bool := CPSR.C
/-- The function `test_CC`. -/
def test_CC (CPSR : Status_Reg) : Bool := !CPSR.C
/-- The function `test_MI`. -/
def test_MI (CPSR : Status_Reg) : Bool := CPSR.N
/-- The function `test_PL`. -/
def test_PL (CPSR : Status_Reg) : Bool := !CPSR.N
/-- The function `test_VS`. -/
def test_VS (CPSR : Status_Reg) : Bool := CPSR.V
/-- The function `test_VC`. -/
def test_VC (CPSR : Status_Reg) : Bool := !CPSR.V
/-- The function `test_HI`. -/
def test_HI (CPSR : Status_Reg) : Bool := CPSR.C && !CPSR.Z
/-- The function `test_LS`. -/
def test_LS (CPSR : Status_Reg) : Bool := CPSR.Z || !CPSR.C
/-- The function `test_GE`. -/
def test_GE (CPSR : Status_Reg) : Bool := CPSR.N == CPSR.V
/-- The function `test_LT`. -/
def test_LT (CPSR : Status_Reg) : Bool := CPSR.N != CPSR.V
/-- The function `test_GT`. -/
def test_GT (CPSR : Status_Reg) : Bool := !CPSR.Z && (CPSR.N == CPSR.V)
/-- The function `test_LE`. -/
def test_LE (CPSR : Status_Reg) : Bool := CPSR.Z || (CPSR.N != CPSR.V)
/-- The function `test_AL`. -/
def test_AL (_CPSR : Status_Reg) : Bool := true

/-- The array `test_conditions[]` of the fifteen predicates. -/
def test_conditions : List (Status_Reg → Bool) :=
  [test_EQ, test_NE, test_CS, test_CC, test_MI, test_PL, test_VS, test_VC, test_HI, test_LS,
    test_GE, test_LT, test_GT, test_LE, test_AL]

/-- The macro `TEST_COND2(cond, CPSR)`: `(cond<15&&test_conditions[cond](CPSR))`;
the array is read only under the guard `cond < 15`. -/
def TEST_COND2 (cond : Nat) (CPSR : Status_Reg) : Bool :=
  if h : cond < 15 then (test_conditions.get ⟨cond, h⟩) CPSR else false

/-! ## Definitions used in the statements -/

/-- Modes that own a saved status register. -/
def privilegedMode (mode : Nat) : Bool :=
  mode = FIQ || mode = IRQ || mode = SVC || mode = ABT || mode = UND

/-- What `armcpu_switchMode` does to the core it is called on. -/
def switchMode_core (mode : Nat) (c : armcpu_t) : armcpu_t :=
  let c1 := switchMode_load mode (switchMode_save c.CPSR.mode c)
  { c1 with CPSR := { c1.CPSR with mode := mode &&& 0x1F } }

/-- What `armcpu_prefetch<PROCNUM>` does to the core `ARMPROC`. -/
def prefetch_core (mem : MemoryLayer) (PROCNUM : Nat) (c : armcpu_t) : armcpu_t :=
  if c.CPSR.T = false then
    { c with
      instruct_adr := c.next_instruction &&& 0xFFFFFFFC
      next_instruction := ((c.next_instruction &&& 0xFFFFFFFC) + 4) % 2 ^ 32
      R := writeR c.R 15 (((c.next_instruction &&& 0xFFFFFFFC) + 8) % 2 ^ 32)
      instruction := mem._MMU_read32 PROCNUM (c.next_instruction &&& 0xFFFFFFFC) }
  else
    { c with
      instruct_adr := c.next_instruction &&& 0xFFFFFFFE
      next_instruction := ((c.next_instruction &&& 0xFFFFFFFE) + 2) % 2 ^ 32
      R := writeR c.R 15 (((c.next_instruction &&& 0xFFFFFFFE) + 4) % 2 ^ 32)
      instruction := mem._MMU_read16 PROCNUM (c.next_instruction &&& 0xFFFFFFFE) }

/-- The shadow `R13` of the bank the mode `mode` uses (`USR` and `SYS` share
the user bank). -/
def bankR13 (mode : Nat) (c : armcpu_t) : Nat :=
  if mode = USR ∨ mode = SYS then c.R13_usr
  else if mode = FIQ then c.R13_fiq
  else if mode = IRQ then c.R13_irq
  else if mode = SVC then c.R13_svc
  else if mode = ABT then c.R13_abt
  else c.R13_und

/-- The shadow `R14` of the bank the mode `mode` uses. -/
def bankR14 (mode : Nat) (c : armcpu_t) : Nat :=
  if mode = USR ∨ mode = SYS then c.R14_usr
  else if mode = FIQ then c.R14_fiq
  else if mode = IRQ then c.R14_irq
  else if mode = SVC then c.R14_svc
  else if mode = ABT then c.R14_abt
  else c.R14_und

/-- The saved-status shadow of a privileged mode. -/
def bankSPSR (mode : Nat) (c : armcpu_t) : Status_Reg :=
  if mode = FIQ then c.SPSR_fiq
  else if mode = IRQ then c.SPSR_irq
  else if mode = SVC then c.SPSR_svc
  else if mode = ABT then c.SPSR_abt
  else c.SPSR_und

/-- The kind-to-mode table of exception entry: `SVC`, `UND`, `SVC`, `ABT`,
`ABT`, `IRQ`, `FIQ` for the kinds `0x00`, `0x04`, `0x08`, `0x0C`, `0x10`,
`0x18`, `0x1C`. -/
def kindMode (number : Nat) : Nat :=
  if number = 0x00 then SVC
  else if number = 0x04 then UND
  else if number = 0x08 then SVC
  else if number = 0x0C then ABT
  else if number = 0x10 then ABT
  else if number = 0x18 then IRQ
  else FIQ

/-- The seven defined exception kinds. -/
def definedKind (number : Nat) : Bool :=
  number = 0x00 || number = 0x04 || number = 0x08 || number = 0x0C || number = 0x10
    || number = 0x18 || number = 0x1C

/-- The core behind `p` carries the identity of the global it is: `proc_ID`
is `0` in `NDS_ARM9` and `1` in `NDS_ARM7`. -/
def ownIdentity (s : NDS) (p : armcpu_ptr) : Bool :=
  match p with
  | armcpu_ptr.NDS_ARM9 => s.NDS_ARM9.proc_ID = 0
  | armcpu_ptr.NDS_ARM7 => s.NDS_ARM7.proc_ID = 1

/-- Clearing the wait-for-interrupt flag: `armcpu->waitIRQ = 0`. -/
def clear_waitIRQ (armcpu : armcpu_ptr) (s : NDS) : NDS :=
  s.setCore armcpu { s.core armcpu with waitIRQ := false }

/-- Interrupt entry as the spec words it: `armcpu_exception` for the IRQ
kind, then the wait-for-interrupt flag cleared, then `armcpu_prefetch`. -/
def irqException_as_exception (mem : MemoryLayer) (armcpu : armcpu_ptr) (s : NDS) : NDS :=
  (armcpu_prefetch_ptr mem armcpu
    (clear_waitIRQ armcpu (armcpu_exception armcpu EXCEPTION_IRQ s))).2

/-- The vector base is the one `armcpu_init` gives the core: `0xFFFF0000`
for `proc_ID` 0, `0` otherwise. -/
def resetVectors (c : armcpu_t) : Bool :=
  c.intVector = 0xFFFF0000 * (if c.proc_ID = 0 then 1 else 0)

/-- The operations of the core other than reset and interrupt entry: the
mode switch, the fetch stage (template and pointer overload), exception entry
of any kind, `armcpu_Wait4IRQ`, `TRAPUNDEF` and the six operations of the
default control interface. -/
inductive CoreOp where
  | switchMode (armcpu : armcpu_ptr) (mode : Nat)
  | prefetch (PROCNUM : Nat)
  | prefetch_ptr (armcpu : armcpu_ptr)
  | exception (cpu : armcpu_ptr) (number : Nat)
  | wait4IRQ (cpu : armcpu_ptr)
  | trapUndef (cpu : armcpu_ptr)
  | stall (armcpu : armcpu_ptr)
  | unstall (armcpu : armcpu_ptr)
  | read_reg (armcpu : armcpu_ptr) (reg_num : Nat)
  | set_reg (armcpu : armcpu_ptr) (reg_num value : Nat)
  | install_post_exec (armcpu : armcpu_ptr) (ex_fn fn_data : Option Nat)
  | remove_post_exec (armcpu : armcpu_ptr)

/-- One operation applied to the machine; a result value is dropped. -/
def CoreOp.run (mem : MemoryLayer) (op : CoreOp) (s : NDS) : NDS :=
  match op with
  | CoreOp.switchMode armcpu mode => (armcpu_switchMode armcpu mode s).2
  | CoreOp.prefetch PROCNUM => (armcpu_prefetch mem PROCNUM s).2
  | CoreOp.prefetch_ptr armcpu => (armcpu_prefetch_ptr mem armcpu s).2
  | CoreOp.exception cpu number => armcpu_exception cpu number s
  | CoreOp.wait4IRQ cpu => (armcpu_Wait4IRQ cpu s).2
  | CoreOp.trapUndef cpu => (TRAPUNDEF cpu s).2
  | CoreOp.stall armcpu => stall_cpu armcpu s
  | CoreOp.unstall armcpu => unstall_cpu armcpu s
  | CoreOp.read_reg armcpu reg_num => (read_cpu_reg armcpu reg_num s).2
  | CoreOp.set_reg armcpu reg_num value => set_cpu_reg armcpu reg_num value s
  | CoreOp.install_post_exec armcpu ex_fn fn_data => install_post_exec_fn armcpu ex_fn fn_data s
  | CoreOp.remove_post_exec armcpu => remove_post_exec_fn armcpu s

/-- A sequence of operations applied to the machine, first to last. -/
def runOps (mem : MemoryLayer) (ops : List CoreOp) (s : NDS) : NDS :=
  ops.foldl (fun s op => op.run mem s) s

/-! ## Concrete states -/

/-- A status word with the given mode and instruction-set flag, the carry
flag set. -/
def sampleStatus (mode : Nat) (T : Bool) : Status_Reg :=
  { mode := mode, T := T, F := false, I := false, RAZ := 0, Q := false, V := false,
    C := true, Z := false, N := false }

/-- A core with pairwise different register contents. -/
def sampleCore (proc_ID mode : Nat) (T : Bool) (next_instruction : Nat) : armcpu_t :=
  { proc_ID := proc_ID
    instruction := 0xE1A00000
    instruct_adr := 0x02000000
    next_instruction := next_instruction
    R := fun i => 0x100 + i.val
    CPSR := sampleStatus mode T
    SPSR := sampleStatus USR true
    R13_usr := 0x213
    R14_usr := 0x214
    R13_svc := 0x313
    R14_svc := 0x314
    R13_abt := 0x413
    R14_abt := 0x414
    R13_und := 0x513
    R14_und := 0x514
    R13_irq := 0x613
    R14_irq := 0x614
    R8_fiq := 0x708
    R9_fiq := 0x709
    R10_fiq := 0x70A
    R11_fiq := 0x70B
    R12_fiq := 0x70C
    R13_fiq := 0x70D
    R14_fiq := 0x70E
    SPSR_svc := sampleStatus SYS false
    SPSR_abt := sampleStatus SVC false
    SPSR_und := sampleStatus IRQ false
    SPSR_irq := sampleStatus FIQ false
    SPSR_fiq := sampleStatus ABT false
    intVector := if proc_ID = 0 then 0xFFFF0000 else 0
    LDTBit := if proc_ID = 0 then 1 else 0
    waitIRQ := true
    halt_IE_and_IF := true
    intrWaitARM_state := 0
    stalled := 0
    post_ex_fn := none
    post_ex_fn_data := none }

/-- A machine whose first core is in the mode `mode` with instruction-set
flag `T` and is about to fetch at `next_instruction`. -/
def sampleNDS (mode : Nat) (T : Bool) (next_instruction : Nat) : NDS :=
  { NDS_ARM9 := sampleCore 0 mode T next_instruction
    NDS_ARM7 := sampleCore 1 SYS false 0x03800004
    reg_IF_bits := fun i => if i = 0 then 0x1 else 0x8
    execute := true
    reschedules := 0
    printed := [] }

/-- A memory layer: the word at `adr` is `adr + 1`, the halfword `adr % 256`,
and every fetch costs something. -/
def sampleMemory : MemoryLayer :=
  { _MMU_read32 := fun _ adr => adr + 1
    _MMU_read16 := fun _ adr => adr % 256
    MMU_codeFetchCycles32 := fun _ _ => 5
    MMU_codeFetchCycles16 := fun _ _ => 3
    MMU_fetchExecuteCycles := fun _ e f => max e f }

/-- Opcode tables whose handlers all halt the machine, so that a call of a
handler shows in the state; the condition test is `TEST_COND2`. -/
def sampleOpcodes : OpcodeTables :=
  { arm_instructions_set := fun _ _ _ s => (3, emu_halt s)
    thumb_instructions_set := fun _ _ _ s => (2, emu_halt s)
    INSTRUCTION_INDEX := fun i => ((i >>> 16) &&& 0xFF0) ||| ((i >>> 4) &&& 0xF)
    TEST_COND := fun cond _ CPSR => TEST_COND2 cond CPSR }

/-- The sample machine in `USR` mode, standard encoding, with the flag `Z`
clear and an instruction of condition `EQ` (`0x01A00000`) fetched in the first
core. -/
def sampleNDS_EQ : NDS :=
  { sampleNDS USR false 0x02000004 with
    NDS_ARM9 := { sampleCore 0 USR false 0x02000004 with instruction := 0x01A00000 } }

/-- The sample machine after the reset of both cores: the first to address
`0x00000000`, the second to `0x03800000`. -/
def sampleReset : NDS :=
  armcpu_init sampleMemory armcpu_ptr.NDS_ARM7 0x03800000
    (armcpu_init sampleMemory armcpu_ptr.NDS_ARM9 0x00000000 (sampleNDS USR false 0x02000004))

/-! ## Lemmas on the machine state -/

theorem core_setCore (s : NDS) (p : armcpu_ptr) (c : armcpu_t) :
    (s.setCore p c).core p = c := by
  cases p <;> rfl

theorem core_printf (s : NDS) (p : armcpu_ptr) (t : Printed) :
    (printf t s).core p = s.core p := by
  cases p <;> rfl

theorem core_changeCPSR (s : NDS) (p : armcpu_ptr) :
    (changeCPSR s).core p = s.core p := by
  cases p <;> rfl

theorem core_emu_halt (s : NDS) (p : armcpu_ptr) :
    (emu_halt s).core p = s.core p := by
  cases p <;> rfl

theorem switchMode_fst (p : armcpu_ptr) (mode : Nat) (s : NDS) :
    (armcpu_switchMode p mode s).1 = (s.core p).CPSR.mode := rfl

theorem core_switchMode (p : armcpu_ptr) (mode : Nat) (s : NDS) :
    (armcpu_switchMode p mode s).2.core p = switchMode_core mode (s.core p) := by
  unfold armcpu_switchMode
  cases h : recognisedMode mode <;>
    simp [core_changeCPSR, core_setCore, core_printf, switchMode_core]

theorem writeR_same (R : Fin 16 → Nat) (i : Fin 16) (v : Nat) : writeR R i v i = v := by
  simp [writeR]

theorem writeR_ne (R : Fin 16 → Nat) (i j : Fin 16) (v : Nat) (h : j ≠ i) :
    writeR R i v j = R j := by
  simp [writeR, h]

/-- The first `switch` leaves `R0`-`R7` and `R13`-`R15` alone. -/
theorem switchMode_save_R (oldmode : Nat) (c : armcpu_t) (i : Fin 16)
    (hi : i.val < 8 ∨ 12 < i.val) : (switchMode_save oldmode c).R i = c.R i := by
  unfold switchMode_save
  split_ifs <;> try rfl
  have h8 : i ≠ 8 := by rintro rfl; exact absurd hi (by decide)
  have h9 : i ≠ 9 := by rintro rfl; exact absurd hi (by decide)
  have h10 : i ≠ 10 := by rintro rfl; exact absurd hi (by decide)
  have h11 : i ≠ 11 := by rintro rfl; exact absurd hi (by decide)
  have h12 : i ≠ 12 := by rintro rfl; exact absurd hi (by decide)
  simp [writeR, h8, h9, h10, h11, h12]

/-- The first `switch` leaves `R8`-`R12` alone unless the departing mode is
`FIQ`. -/
theorem switchMode_save_R_notFIQ (oldmode : Nat) (c : armcpu_t) (h : oldmode ≠ FIQ) :
    (switchMode_save oldmode c).R = c.R := by
  unfold switchMode_save
  split_ifs <;> rfl

/-- The second `switch` leaves `R0`-`R7` and `R15` alone. -/
theorem switchMode_load_R (mode : Nat) (c : armcpu_t) (i : Fin 16)
    (hi : i.val < 8 ∨ i.val = 15) : (switchMode_load mode c).R i = c.R i := by
  have h8 : i ≠ 8 := by rintro rfl; exact absurd hi (by decide)
  have h9 : i ≠ 9 := by rintro rfl; exact absurd hi (by decide)
  have h10 : i ≠ 10 := by rintro rfl; exact absurd hi (by decide)
  have h11 : i ≠ 11 := by rintro rfl; exact absurd hi (by decide)
  have h12 : i ≠ 12 := by rintro rfl; exact absurd hi (by decide)
  have h13 : i ≠ 13 := by rintro rfl; exact absurd hi (by decide)
  have h14 : i ≠ 14 := by rintro rfl; exact absurd hi (by decide)
  unfold switchMode_load
  split_ifs <;> simp [writeR, h8, h9, h10, h11, h12, h13, h14]

/-- The second `switch` leaves `R8`-`R12` alone unless the target is `FIQ`. -/
theorem switchMode_load_R_notFIQ (mode : Nat) (c : armcpu_t) (h : mode ≠ FIQ) (i : Fin 16)
    (hi : i.val < 13 ∨ i.val = 15) : (switchMode_load mode c).R i = c.R i := by
  have h13 : i ≠ 13 := by rintro rfl; exact absurd hi (by decide)
  have h14 : i ≠ 14 := by rintro rfl; exact absurd hi (by decide)
  unfold switchMode_load
  split_ifs <;> first | contradiction | simp [writeR, h13, h14]

/-- Neither `switch` touches the current status, the pipeline registers, the
identity, the vector base or the control flags. -/
theorem switchMode_save_frame (oldmode : Nat) (c : armcpu_t) :
    (switchMode_save oldmode c).CPSR = c.CPSR
      ∧ (switchMode_save oldmode c).instruct_adr = c.instruct_adr
      ∧ (switchMode_save oldmode c).next_instruction = c.next_instruction
      ∧ (switchMode_save oldmode c).instruction = c.instruction
      ∧ (switchMode_save oldmode c).proc_ID = c.proc_ID
      ∧ (switchMode_save oldmode c).intVector = c.intVector
      ∧ (switchMode_save oldmode c).waitIRQ = c.waitIRQ := by
  unfold switchMode_save
  split_ifs <;> simp

theorem switchMode_load_frame (mode : Nat) (c : armcpu_t) :
    (switchMode_load mode c).CPSR = c.CPSR
      ∧ (switchMode_load mode c).instruct_adr = c.instruct_adr
      ∧ (switchMode_load mode c).next_instruction = c.next_instruction
      ∧ (switchMode_load mode c).instruction = c.instruction
      ∧ (switchMode_load mode c).proc_ID = c.proc_ID
      ∧ (switchMode_load mode c).intVector = c.intVector
      ∧ (switchMode_load mode c).waitIRQ = c.waitIRQ := by
  unfold switchMode_load
  split_ifs <;> simp

theorem switchMode_core_frame (mode : Nat) (c : armcpu_t) :
    (switchMode_core mode c).instruct_adr = c.instruct_adr
      ∧ (switchMode_core mode c).next_instruction = c.next_instruction
      ∧ (switchMode_core mode c).instruction = c.instruction
      ∧ (switchMode_core mode c).proc_ID = c.proc_ID
      ∧ (switchMode_core mode c).intVector = c.intVector
      ∧ (switchMode_core mode c).waitIRQ = c.waitIRQ := by
  have hs := switchMode_save_frame c.CPSR.mode c
  have hl := switchMode_load_frame mode (switchMode_save c.CPSR.mode c)
  simp only [switchMode_core]
  exact ⟨hl.2.1.trans hs.2.1, hl.2.2.1.trans hs.2.2.1, hl.2.2.2.1.trans hs.2.2.2.1,
    hl.2.2.2.2.1.trans hs.2.2.2.2.1, hl.2.2.2.2.2.1.trans hs.2.2.2.2.2.1,
    hl.2.2.2.2.2.2.trans hs.2.2.2.2.2.2⟩

theorem recognisedMode_iff (m : Nat) :
    recognisedMode m = true ↔
      m = USR ∨ m = SYS ∨ m = FIQ ∨ m = IRQ ∨ m = SVC ∨ m = ABT ∨ m = UND := by
  simp only [recognisedMode, Bool.or_eq_true, decide_eq_true_eq, or_assoc]

theorem privilegedMode_iff (m : Nat) :
    privilegedMode m = true ↔ m = FIQ ∨ m = IRQ ∨ m = SVC ∨ m = ABT ∨ m = UND := by
  simp only [privilegedMode, Bool.or_eq_true, decide_eq_true_eq, or_assoc]

/-- A recognised mode fits the 5-bit mode field. -/
theorem recognisedMode_land (m : Nat) (h : recognisedMode m = true) : m &&& 0x1F = m := by
  rw [recognisedMode_iff] at h
  rcases h with rfl | rfl | rfl | rfl | rfl | rfl | rfl <;> decide

theorem switchMode_core_CPSR (mode : Nat) (c : armcpu_t) :
    (switchMode_core mode c).CPSR = { c.CPSR with mode := mode &&& 0x1F } := by
  simp only [switchMode_core, (switchMode_load_frame mode _).1,
    (switchMode_save_frame c.CPSR.mode c).1]

/-- Round trip on one core, the status register: away from the current mode
and back. -/
theorem switchMode_core_roundtrip_CPSR (c : armcpu_t) (M M' : Nat) (hc : c.CPSR.mode = M)
    (hM : recognisedMode M = true) :
    (switchMode_core M (switchMode_core M' c)).CPSR = c.CPSR := by
  rw [switchMode_core_CPSR, switchMode_core_CPSR, recognisedMode_land M hM, ← hc]

set_option maxHeartbeats 1600000 in
/-- Round trip on one core, the live registers. -/
theorem switchMode_core_roundtrip_R (c : armcpu_t) (M M' : Nat) (hc : c.CPSR.mode = M)
    (hM : recognisedMode M = true) (hM' : recognisedMode M' = true) :
    (switchMode_core M (switchMode_core M' c)).R = c.R := by
  have l16 : (16 &&& 31 : Nat) = 16 := by decide
  have l17 : (17 &&& 31 : Nat) = 17 := by decide
  have l18 : (18 &&& 31 : Nat) = 18 := by decide
  have l19 : (19 &&& 31 : Nat) = 19 := by decide
  have l23 : (23 &&& 31 : Nat) = 23 := by decide
  have l27 : (27 &&& 31 : Nat) = 27 := by decide
  have l31 : (31 &&& 31 : Nat) = 31 := by decide
  rw [recognisedMode_iff] at hM hM'
  rcases hM with rfl | rfl | rfl | rfl | rfl | rfl | rfl <;>
  rcases hM' with rfl | rfl | rfl | rfl | rfl | rfl | rfl <;>
  funext i <;>
  simp [switchMode_core, switchMode_save, switchMode_load, hc, USR, FIQ, IRQ, SVC, ABT,
    UND, SYS, l16, l17, l18, l19, l23, l27, l31, writeR] <;>
  split_ifs <;> simp_all

set_option maxHeartbeats 1600000 in
/-- Round trip on one core, the live saved status of a privileged mode. -/
theorem switchMode_core_roundtrip_SPSR (c : armcpu_t) (M M' : Nat) (hc : c.CPSR.mode = M)
    (hM : privilegedMode M = true) (hM' : recognisedMode M' = true) :
    (switchMode_core M (switchMode_core M' c)).SPSR = c.SPSR := by
  have l16 : (16 &&& 31 : Nat) = 16 := by decide
  have l17 : (17 &&& 31 : Nat) = 17 := by decide
  have l18 : (18 &&& 31 : Nat) = 18 := by decide
  have l19 : (19 &&& 31 : Nat) = 19 := by decide
  have l23 : (23 &&& 31 : Nat) = 23 := by decide
  have l27 : (27 &&& 31 : Nat) = 27 := by decide
  have l31 : (31 &&& 31 : Nat) = 31 := by decide
  rw [privilegedMode_iff] at hM
  rw [recognisedMode_iff] at hM'
  rcases hM with rfl | rfl | rfl | rfl | rfl <;>
  rcases hM' with rfl | rfl | rfl | rfl | rfl | rfl | rfl <;>
  simp [switchMode_core, switchMode_save, switchMode_load, hc, USR, FIQ, IRQ, SVC, ABT,
    UND, SYS, l16, l17, l18, l19, l23, l27, l31]

set_option maxHeartbeats 1600000 in
/-- Bank exchange on one core: what `armcpu_switchMode` saves and loads when
the target uses another bank than the current mode. -/
theorem switchMode_core_banks (c : armcpu_t) (M M' : Nat) (hc : c.CPSR.mode = M)
    (hM : recognisedMode M = true) (hM' : recognisedMode M' = true) (hne : M ≠ M')
    (hus : ¬(M = USR ∧ M' = SYS)) (hsu : ¬(M = SYS ∧ M' = USR)) :
    bankR13 M (switchMode_core M' c) = c.R 13
      ∧ bankR14 M (switchMode_core M' c) = c.R 14
      ∧ (switchMode_core M' c).R 13 = bankR13 M' c
      ∧ (switchMode_core M' c).R 14 = bankR14 M' c
      ∧ (privilegedMode M = true → bankSPSR M (switchMode_core M' c) = c.SPSR)
      ∧ (privilegedMode M' = true → (switchMode_core M' c).SPSR = bankSPSR M' c)
      ∧ ((M = FIQ ∧ M' ≠ FIQ) ∨ (M ≠ FIQ ∧ M' = FIQ) →
          (switchMode_core M' c).R 8 = c.R8_fiq ∧ (switchMode_core M' c).R8_fiq = c.R 8
            ∧ (switchMode_core M' c).R 9 = c.R9_fiq ∧ (switchMode_core M' c).R9_fiq = c.R 9
            ∧ (switchMode_core M' c).R 10 = c.R10_fiq ∧ (switchMode_core M' c).R10_fiq = c.R 10
            ∧ (switchMode_core M' c).R 11 = c.R11_fiq ∧ (switchMode_core M' c).R11_fiq = c.R 11
            ∧ (switchMode_core M' c).R 12 = c.R12_fiq
            ∧ (switchMode_core M' c).R12_fiq = c.R 12) := by
  rw [recognisedMode_iff] at hM hM'
  rcases hM with rfl | rfl | rfl | rfl | rfl | rfl | rfl <;>
  rcases hM' with rfl | rfl | rfl | rfl | rfl | rfl | rfl <;>
  first
    | (exfalso; exact hne rfl)
    | (exfalso; exact hus (And.intro (by rfl) (by rfl)))
    | (exfalso; exact hsu (And.intro (by rfl) (by rfl)))
    | simp [switchMode_core, switchMode_save, switchMode_load, bankR13, bankR14, bankSPSR,
        privilegedMode, hc, USR, FIQ, IRQ, SVC, ABT, UND, SYS, writeR]

theorem core_exception_mode (number : Nat) (s : NDS) (p : armcpu_ptr) :
    (exception_mode number s).2.core p = s.core p := by
  unfold exception_mode
  split_ifs <;> rfl

theorem definedKind_iff (number : Nat) :
    definedKind number = true ↔
      number = 0x00 ∨ number = 0x04 ∨ number = 0x08 ∨ number = 0x0C ∨ number = 0x10
        ∨ number = 0x18 ∨ number = 0x1C := by
  simp only [definedKind, Bool.or_eq_true, decide_eq_true_eq, or_assoc]

/-- The `switch(number)` follows the kind-to-mode table on the defined
kinds and calls nothing there. -/
theorem exception_mode_defined (number : Nat) (s : NDS) (h : definedKind number = true) :
    exception_mode number s = (kindMode number, s) := by
  rw [definedKind_iff] at h
  rcases h with rfl | rfl | rfl | rfl | rfl | rfl | rfl <;> rfl

/-- The core `armcpu_exception` is called on, after the call: the entry
sequence applied to the core after the mode switch. -/
theorem core_exception (cpu : armcpu_ptr) (number : Nat) (s : NDS) :
    (armcpu_exception cpu number s).core cpu
      = { switchMode_core (exception_mode number s).1 (s.core cpu) with
          R := writeR (writeR
                (switchMode_core (exception_mode number s).1 (s.core cpu)).R 14
                (s.core cpu).next_instruction) 15
                (((s.core cpu).intVector + number) % 2 ^ 32)
          SPSR := (s.core cpu).CPSR
          CPSR := { (s.core cpu).CPSR with
                    mode := (exception_mode number s).1 &&& 0x1F, T := false, I := true }
          next_instruction := ((s.core cpu).intVector + number) % 2 ^ 32 } := by
  have hf := switchMode_core_frame (exception_mode number s).1 (s.core cpu)
  have hc := switchMode_core_CPSR (exception_mode number s).1 (s.core cpu)
  simp only [armcpu_exception, core_printf, core_setCore, core_changeCPSR, core_switchMode,
    core_exception_mode, hf.2.1, hf.2.2.2.2.1, hc, writeR_same]

theorem execute_setCore (s : NDS) (p : armcpu_ptr) (c : armcpu_t) :
    (s.setCore p c).execute = s.execute := by
  cases p <;> rfl

theorem execute_switchMode (p : armcpu_ptr) (mode : Nat) (s : NDS) :
    (armcpu_switchMode p mode s).2.execute = s.execute := by
  unfold armcpu_switchMode
  cases recognisedMode mode <;> simp [changeCPSR, NDS_Reschedule, printf, execute_setCore]

theorem execute_exception (cpu : armcpu_ptr) (number : Nat) (s : NDS) :
    (armcpu_exception cpu number s).execute = (exception_mode number s).2.execute := by
  simp [armcpu_exception, changeCPSR, NDS_Reschedule, printf, execute_setCore,
    execute_switchMode]

/-- The state after `armcpu_prefetch<PROCNUM>`: only the core `ARMPROC`
changes. -/
theorem prefetch_snd (mem : MemoryLayer) (PROCNUM : Nat) (s : NDS) :
    (armcpu_prefetch mem PROCNUM s).2
      = s.setCore (ARMPROC PROCNUM) (prefetch_core mem PROCNUM (s.core (ARMPROC PROCNUM))) := by
  unfold armcpu_prefetch prefetch_core
  by_cases hT : (s.core (ARMPROC PROCNUM)).CPSR.T = false
  · simp [hT]
  · simp only [hT, if_false]
    split_ifs <;> rfl

theorem ownIdentity_congr (s s' : NDS) (p : armcpu_ptr)
    (h : (s'.core p).proc_ID = (s.core p).proc_ID) : ownIdentity s' p = ownIdentity s p := by
  cases p <;> simp only [ownIdentity, NDS.core] at * <;> rw [h]

/-- The overload of `armcpu_prefetch` taking a pointer works on the core it
is given when that core carries its own identity. -/
theorem core_prefetch_ptr (mem : MemoryLayer) (p : armcpu_ptr) (s : NDS)
    (h : ownIdentity s p = true) :
    (armcpu_prefetch_ptr mem p s).2.core p
      = prefetch_core mem (s.core p).proc_ID (s.core p) := by
  cases p <;> simp only [ownIdentity, decide_eq_true_eq] at h <;>
    simp [armcpu_prefetch_ptr, NDS.core, h, prefetch_snd, ARMPROC, NDS.setCore]

theorem testBit_zero_BIT0 (adr : Nat) : (BIT0 adr != 0) = adr.testBit 0 := by
  rcases Nat.mod_two_eq_zero_or_one adr with h | h <;>
    simp [BIT0, Nat.and_one_is_mod, Nat.testBit_zero, h]

theorem land_bit21 (flag : Nat) : flag &&& 0x00200000 ≠ 0 ↔ flag.testBit 21 = true := by
  have h : (0x00200000 : Nat) = 2 ^ 21 := by norm_num
  rw [h]
  constructor
  · intro hne
    by_contra hb
    apply hne
    apply Nat.eq_of_testBit_eq
    intro i
    rw [Nat.testBit_and, Nat.testBit_two_pow, Nat.zero_testBit]
    by_cases hi : 21 = i
    · subst hi
      simp [hb]
    · simp [hi]
  · intro hb h0
    have h1 : (flag &&& 2 ^ 21).testBit 21 = false := by
      rw [h0]
      exact Nat.zero_testBit 21
    rw [Nat.testBit_and, hb, Nat.testBit_two_pow_self] at h1
    exact absurd h1 (by decide)

/-- The core `armcpu_irqException` is called on, after the call: the fetch
stage applied to the core after the entry sequence. -/
theorem core_irqException (mem : MemoryLayer) (p : armcpu_ptr) (s : NDS)
    (h : ownIdentity s p = true) :
    (armcpu_irqException mem p s).2.core p
      = prefetch_core mem (s.core p).proc_ID
          { switchMode_core IRQ (s.core p) with
            R := writeR (switchMode_core IRQ (s.core p)).R 14
                  (((s.core p).instruct_adr + 4) % 2 ^ 32)
            SPSR := (s.core p).CPSR
            CPSR := { (s.core p).CPSR with mode := IRQ &&& 0x1F, T := false, I := true }
            next_instruction := ((s.core p).intVector + 0x18) % 2 ^ 32
            waitIRQ := false } := by
  have hf := switchMode_core_frame IRQ (s.core p)
  have hc := switchMode_core_CPSR IRQ (s.core p)
  unfold armcpu_irqException
  simp only []
  rw [core_prefetch_ptr]
  · simp only [core_setCore, core_switchMode, hf.1, hf.2.2.2.1, hf.2.2.2.2.1, hc]
  · rw [ownIdentity_congr s _ p (by simp only [core_setCore, core_switchMode, hf.2.2.2.1])]
    exact h

/-- The core `armcpu_init` is called on, after the call: the fetch stage
applied to the cleared core. -/
theorem core_init (mem : MemoryLayer) (p : armcpu_ptr) (adr : Nat) (s : NDS)
    (h : ownIdentity s p = true) :
    (armcpu_init mem p adr s).core p
      = prefetch_core mem (s.core p).proc_ID
          { s.core p with
            LDTBit := if (s.core p).proc_ID = 0 then 1 else 0
            intVector := 0xFFFF0000 * (if (s.core p).proc_ID = 0 then 1 else 0)
            waitIRQ := false
            halt_IE_and_IF := false
            intrWaitARM_state := 0
            R := fun _ => 0
            CPSR := { Status_Reg.ofVal SYS with T := adr.testBit 0 }
            SPSR := Status_Reg.ofVal SYS
            R13_usr := 0
            R14_usr := 0
            R13_svc := 0
            R14_svc := 0
            R13_abt := 0
            R14_abt := 0
            R13_und := 0
            R14_und := 0
            R13_irq := 0
            R14_irq := 0
            R8_fiq := 0
            R9_fiq := 0
            R10_fiq := 0
            R11_fiq := 0
            R12_fiq := 0
            R13_fiq := 0
            R14_fiq := 0
            SPSR_svc := Status_Reg.ofVal 0
            SPSR_abt := Status_Reg.ofVal 0
            SPSR_und := Status_Reg.ofVal 0
            SPSR_irq := Status_Reg.ofVal 0
            SPSR_fiq := Status_Reg.ofVal 0
            next_instruction := adr &&& 0xFFFFFFFE } := by
  unfold armcpu_init
  simp only []
  rw [core_prefetch_ptr]
  · simp only [core_setCore, testBit_zero_BIT0]
  · rw [ownIdentity_congr s _ p (by simp only [core_setCore])]
    exact h

theorem land_FFFFFFFE_FFFFFFFC (x : Nat) :
    (x &&& 0xFFFFFFFE) &&& 0xFFFFFFFC = x &&& 0xFFFFFFFC := by
  have h : (0xFFFFFFFE &&& 0xFFFFFFFC : Nat) = 0xFFFFFFFC := by decide
  rw [Nat.land_assoc, h]

theorem land_FFFFFFFE_FFFFFFFE (x : Nat) :
    (x &&& 0xFFFFFFFE) &&& 0xFFFFFFFE = x &&& 0xFFFFFFFE := by
  have h : (0xFFFFFFFE &&& 0xFFFFFFFE : Nat) = 0xFFFFFFFE := by decide
  rw [Nat.land_assoc, h]

/-- The core after interrupt entry as the spec words it. -/
theorem core_irqException_as_exception (mem : MemoryLayer) (p : armcpu_ptr) (s : NDS)
    (h : ownIdentity s p = true) :
    (irqException_as_exception mem p s).core p
      = prefetch_core mem (s.core p).proc_ID
          { switchMode_core IRQ (s.core p) with
            R := writeR (writeR (switchMode_core IRQ (s.core p)).R 14
                  (s.core p).next_instruction) 15
                  (((s.core p).intVector + 0x18) % 2 ^ 32)
            SPSR := (s.core p).CPSR
            CPSR := { (s.core p).CPSR with mode := IRQ &&& 0x1F, T := false, I := true }
            next_instruction := ((s.core p).intVector + 0x18) % 2 ^ 32
            waitIRQ := false } := by
  have hf := switchMode_core_frame IRQ (s.core p)
  have hm : exception_mode EXCEPTION_IRQ s = (IRQ, s) := rfl
  unfold irqException_as_exception clear_waitIRQ
  rw [core_prefetch_ptr]
  · simp only [core_setCore, core_exception, hm, hf.2.2.2.1]
    rfl
  · rw [ownIdentity_congr s _ p
      (by simp only [core_setCore, core_exception, hm, hf.2.2.2.1])]
    exact h

/-- The fetch cost `armcpu_prefetch<0>` reports: in both encodings the cost
of a 32-bit code fetch at the fetch address, never 0 by itself. -/
theorem prefetch_cost_core0 (mem : MemoryLayer) (s : NDS) :
    (armcpu_prefetch mem 0 s).1
      = mem.MMU_codeFetchCycles32 0
          ((s.core (ARMPROC 0)).next_instruction
            &&& (if (s.core (ARMPROC 0)).CPSR.T = true then 0xFFFFFFFE else 0xFFFFFFFC)) := by
  unfold armcpu_prefetch
  have hlt : ∀ x : Nat, x &&& 0xFFFFFFFE ≠ ((x &&& 0xFFFFFFFE) + 2) % 4294967296 := by
    intro x
    have : x &&& 0xFFFFFFFE ≤ 0xFFFFFFFE := Nat.and_le_right
    omega
  cases hT : (s.core (ARMPROC 0)).CPSR.T
  · simp [hT]
  · simp [hT, core_setCore, hlt]

theorem core_setCore_ne (s : NDS) (p r : armcpu_ptr) (c : armcpu_t) (h : r ≠ p) :
    (s.setCore p c).core r = s.core r := by
  cases p <;> cases r <;> first | rfl | exact absurd rfl h

theorem prefetch_core_frame (mem : MemoryLayer) (n : Nat) (c : armcpu_t) :
    (prefetch_core mem n c).intVector = c.intVector
      ∧ (prefetch_core mem n c).proc_ID = c.proc_ID
      ∧ (prefetch_core mem n c).waitIRQ = c.waitIRQ
      ∧ (prefetch_core mem n c).CPSR = c.CPSR := by
  unfold prefetch_core
  split_ifs <;> simp

/-- The fetch stage keeps the vector base, the identity, the wait flag and
the status of every core. -/
theorem prefetch_frame (mem : MemoryLayer) (n : Nat) (s : NDS) (r : armcpu_ptr) :
    ((armcpu_prefetch mem n s).2.core r).intVector = (s.core r).intVector
      ∧ ((armcpu_prefetch mem n s).2.core r).proc_ID = (s.core r).proc_ID
      ∧ ((armcpu_prefetch mem n s).2.core r).waitIRQ = (s.core r).waitIRQ
      ∧ ((armcpu_prefetch mem n s).2.core r).CPSR = (s.core r).CPSR := by
  rw [prefetch_snd]
  by_cases h : r = ARMPROC n
  · subst h
    rw [core_setCore]
    exact prefetch_core_frame mem n _
  · rw [core_setCore_ne _ _ _ _ h]
    exact ⟨rfl, rfl, rfl, rfl⟩

theorem prefetch_ptr_frame (mem : MemoryLayer) (p : armcpu_ptr) (s : NDS) (r : armcpu_ptr) :
    ((armcpu_prefetch_ptr mem p s).2.core r).intVector = (s.core r).intVector
      ∧ ((armcpu_prefetch_ptr mem p s).2.core r).proc_ID = (s.core r).proc_ID
      ∧ ((armcpu_prefetch_ptr mem p s).2.core r).waitIRQ = (s.core r).waitIRQ
      ∧ ((armcpu_prefetch_ptr mem p s).2.core r).CPSR = (s.core r).CPSR := by
  unfold armcpu_prefetch_ptr
  split_ifs
  · exact prefetch_frame mem 0 s r
  · exact prefetch_frame mem 1 s r

/-- `armcpu_init` gives the core it resets the reset vector base and keeps
that of the other core. -/
theorem init_resetVectors (mem : MemoryLayer) (p : armcpu_ptr) (adr : Nat) (s : NDS)
    (r : armcpu_ptr) (hr : r = p ∨ resetVectors (s.core r) = true) :
    resetVectors ((armcpu_init mem p adr s).core r) = true := by
  unfold armcpu_init
  simp only []
  have hf := prefetch_ptr_frame mem p
    (s.setCore p
      { s.core p with
        LDTBit := if (s.core p).proc_ID = 0 then 1 else 0
        intVector := 0xFFFF0000 * (if (s.core p).proc_ID = 0 then 1 else 0)
        waitIRQ := false
        halt_IE_and_IF := false
        intrWaitARM_state := 0
        R := fun _ => 0
        CPSR := { Status_Reg.ofVal SYS with T := BIT0 adr != 0 }
        SPSR := Status_Reg.ofVal SYS
        R13_usr := 0
        R14_usr := 0
        R13_svc := 0
        R14_svc := 0
        R13_abt := 0
        R14_abt := 0
        R13_und := 0
        R14_und := 0
        R13_irq := 0
        R14_irq := 0
        R8_fiq := 0
        R9_fiq := 0
        R10_fiq := 0
        R11_fiq := 0
        R12_fiq := 0
        R13_fiq := 0
        R14_fiq := 0
        SPSR_svc := Status_Reg.ofVal 0
        SPSR_abt := Status_Reg.ofVal 0
        SPSR_und := Status_Reg.ofVal 0
        SPSR_irq := Status_Reg.ofVal 0
        SPSR_fiq := Status_Reg.ofVal 0
        next_instruction := adr &&& 0xFFFFFFFE }) r
  unfold resetVectors
  rw [hf.1, hf.2.1]
  by_cases h : r = p
  · subst h
    simp only [core_setCore, decide_True]
  · rw [core_setCore_ne _ _ _ _ h]
    rcases hr with hr | hr
    · exact absurd hr h
    · exact hr

/-- With the reset vector base the test of `TRAPUNDEF` fails and the machine
is halted. -/
theorem TRAPUNDEF_resetVectors (cpu : armcpu_ptr) (s : NDS)
    (h : resetVectors (s.core cpu) = true) : TRAPUNDEF cpu s = (4, emu_halt s) := by
  unfold resetVectors at h
  unfold TRAPUNDEF ARMCPU_ARM9
  by_cases hid : (s.core cpu).proc_ID = 0
  · simp [hid] at h
    simp [hid, h]
  · simp [hid] at h
    simp [hid, h]

/-- The route through the undefined-instruction vector of the first core. -/
theorem TRAPUNDEF_route (cpu : armcpu_ptr) (s : NDS)
    (h : xor (decide ((s.core cpu).intVector ≠ 0))
          (decide ((s.core cpu).proc_ID = ARMCPU_ARM9)) = true) :
    (TRAPUNDEF cpu s).1 = 4
      ∧ ((TRAPUNDEF cpu s).2.core armcpu_ptr.NDS_ARM9).CPSR.mode = UND
      ∧ ((TRAPUNDEF cpu s).2.core armcpu_ptr.NDS_ARM9).next_instruction
          = ((s.core armcpu_ptr.NDS_ARM9).intVector + 0x04) % 2 ^ 32
      ∧ (TRAPUNDEF cpu s).2.execute = s.execute := by
  have hm : exception_mode EXCEPTION_UNDEFINED_INSTRUCTION s = (UND, s) := rfl
  have hl : UND &&& 0x1F = UND := by decide
  unfold TRAPUNDEF
  rw [if_pos h]
  simp only [core_exception, execute_exception, hm, hl]
  exact ⟨trivial, trivial, rfl, trivial⟩

/-- The second `switch` takes its `default` branch and loads nothing. -/
theorem switchMode_load_unrecognised (mode : Nat) (c : armcpu_t)
    (h : recognisedMode mode = false) : switchMode_load mode c = c := by
  have h' : ¬ recognisedMode mode = true := by simp [h]
  rw [recognisedMode_iff] at h'
  unfold switchMode_load
  split_ifs with h1 h2 h3 h4 h5 h6 <;> first | rfl | (exfalso; apply h'; tauto)

theorem printed_setCore (s : NDS) (p : armcpu_ptr) (c : armcpu_t) :
    (s.setCore p c).printed = s.printed := by
  cases p <;> rfl

/-- The `default` branch prints the wrong-mode diagnostic. -/
theorem printed_switchMode_unrecognised (p : armcpu_ptr) (mode : Nat) (s : NDS)
    (h : recognisedMode mode = false) :
    (armcpu_switchMode p mode s).2.printed
      = s.printed ++ [Printed.switchMode_WRONG_mode mode] := by
  simp [armcpu_switchMode, h, changeCPSR, NDS_Reschedule, printf, printed_setCore]

/-- A store through `p` that keeps a set wait flag of `*p` keeps a set wait
flag of every core. -/
theorem waitIRQ_setCore (s : NDS) (p r : armcpu_ptr) (c : armcpu_t)
    (hc : (s.core p).waitIRQ = true → c.waitIRQ = true)
    (h : (s.core r).waitIRQ = true) : ((s.setCore p c).core r).waitIRQ = true := by
  by_cases hr : r = p
  · subst hr
    rw [core_setCore]
    exact hc h
  · rw [core_setCore_ne _ _ _ _ hr]
    exact h

theorem core_switchMode_ne (p r : armcpu_ptr) (mode : Nat) (s : NDS) (h : r ≠ p) :
    (armcpu_switchMode p mode s).2.core r = s.core r := by
  unfold armcpu_switchMode
  cases recognisedMode mode <;>
    simp [core_changeCPSR, core_setCore_ne _ _ _ _ h, core_printf]

theorem waitIRQ_switchMode (p r : armcpu_ptr) (mode : Nat) (s : NDS) :
    ((armcpu_switchMode p mode s).2.core r).waitIRQ = (s.core r).waitIRQ := by
  by_cases hr : r = p
  · subst hr
    rw [core_switchMode]
    exact (switchMode_core_frame mode _).2.2.2.2.2
  · rw [core_switchMode_ne _ _ _ _ hr]

theorem core_exception_ne (p r : armcpu_ptr) (number : Nat) (s : NDS) (h : r ≠ p) :
    (armcpu_exception p number s).core r = s.core r := by
  simp only [armcpu_exception, core_printf, core_setCore_ne _ _ _ _ h, core_changeCPSR,
    core_switchMode_ne _ _ _ _ h, core_exception_mode]

theorem waitIRQ_exception (p r : armcpu_ptr) (number : Nat) (s : NDS) :
    ((armcpu_exception p number s).core r).waitIRQ = (s.core r).waitIRQ := by
  by_cases hr : r = p
  · subst hr
    rw [core_exception]
    exact (switchMode_core_frame _ _).2.2.2.2.2
  · rw [core_exception_ne _ _ _ _ hr]

theorem waitIRQ_run (mem : MemoryLayer) (op : CoreOp) (s : NDS) (r : armcpu_ptr)
    (h : (s.core r).waitIRQ = true) : ((op.run mem s).core r).waitIRQ = true := by
  cases op with
  | switchMode p mode => simp only [CoreOp.run, waitIRQ_switchMode, h]
  | prefetch n => simp only [CoreOp.run, (prefetch_frame mem n s r).2.2.1, h]
  | prefetch_ptr p => simp only [CoreOp.run, (prefetch_ptr_frame mem p s r).2.2.1, h]
  | exception p number => simp only [CoreOp.run, waitIRQ_exception, h]
  | wait4IRQ p =>
    simp only [CoreOp.run, armcpu_Wait4IRQ]
    apply waitIRQ_setCore
    · intro h'; exact h'
    · apply waitIRQ_setCore
      · intro _; rfl
      · exact h
  | trapUndef p =>
    simp only [CoreOp.run, TRAPUNDEF]
    split_ifs
    · simp only [waitIRQ_exception, h]
    · simp only [core_emu_halt, h]
  | stall p =>
    simp only [CoreOp.run, stall_cpu]
    apply waitIRQ_setCore
    · intro h'; exact h'
    · rw [core_printf]; exact h
  | unstall p =>
    simp only [CoreOp.run, unstall_cpu]
    apply waitIRQ_setCore
    · intro h'; exact h'
    · rw [core_printf]; exact h
  | read_reg p n =>
    simp only [CoreOp.run, read_cpu_reg]
    split_ifs <;> exact h
  | set_reg p n v =>
    simp only [CoreOp.run, set_cpu_reg]
    split_ifs
    · exact waitIRQ_setCore _ _ _ _ (fun h' => h') h
    · exact waitIRQ_setCore _ _ _ _ (fun h' => h') h
    · exact h
    · exact h
  | install_post_exec p f d =>
    simp only [CoreOp.run, install_post_exec_fn]
    apply waitIRQ_setCore
    · intro h'; exact h'
    · exact waitIRQ_setCore _ _ _ _ (fun h' => h') h
  | remove_post_exec p =>
    simp only [CoreOp.run, remove_post_exec_fn]
    exact waitIRQ_setCore _ _ _ _ (fun h' => h') h

theorem waitIRQ_runOps (mem : MemoryLayer) (ops : List CoreOp) (s : NDS) (r : armcpu_ptr)
    (h : (s.core r).waitIRQ = true) : ((runOps mem ops s).core r).waitIRQ = true := by
  induction ops generalizing s with
  | nil => exact h
  | cons op ops ih =>
    simp only [runOps, List.foldl_cons]
    exact ih (op.run mem s) (waitIRQ_run mem op s r h)

theorem waitIRQ_irqException (mem : MemoryLayer) (p : armcpu_ptr) (s : NDS) :
    ((armcpu_irqException mem p s).2.core p).waitIRQ = false := by
  unfold armcpu_irqException
  simp only []
  rw [(prefetch_ptr_frame mem p _ p).2.2.1, core_setCore]

/-! ## Theorems -/

/-- C7: `armcpu_switchMode` returns the mode field the status register had
before the call; afterwards the mode field is `mode & 0x1F`, every other
field of the status register (`N`, `Z`, `C`, `V`, `Q`, `I`, `F`, `T` and the
reserved bits) is unchanged, `R0`-`R7`, `R15`, `instruct_adr`,
`next_instruction` and `instruction` are unchanged, and so are `R8`-`R12`
when neither the old mode nor the target is `FIQ`. -/
theorem armcpu_switchMode_frame (armcpu : armcpu_ptr) (mode : Nat) (s : NDS) :
    (armcpu_switchMode armcpu mode s).1 = (s.core armcpu).CPSR.mode
      ∧ ((armcpu_switchMode armcpu mode s).2.core armcpu).CPSR
          = { (s.core armcpu).CPSR with mode := mode &&& 0x1F }
      ∧ (∀ i : Fin 16, i.val < 8 ∨ i.val = 15 →
          ((armcpu_switchMode armcpu mode s).2.core armcpu).R i = (s.core armcpu).R i)
      ∧ ((armcpu_switchMode armcpu mode s).2.core armcpu).instruct_adr
          = (s.core armcpu).instruct_adr
      ∧ ((armcpu_switchMode armcpu mode s).2.core armcpu).next_instruction
          = (s.core armcpu).next_instruction
      ∧ ((armcpu_switchMode armcpu mode s).2.core armcpu).instruction
          = (s.core armcpu).instruction
      ∧ ((s.core armcpu).CPSR.mode ≠ FIQ → mode ≠ FIQ →
          ∀ i : Fin 16, 8 ≤ i.val ∧ i.val ≤ 12 →
            ((armcpu_switchMode armcpu mode s).2.core armcpu).R i = (s.core armcpu).R i) := by
  rw [core_switchMode, switchMode_fst]
  have hs := switchMode_save_frame (s.core armcpu).CPSR.mode (s.core armcpu)
  have hl := switchMode_load_frame mode
    (switchMode_save (s.core armcpu).CPSR.mode (s.core armcpu))
  refine ⟨rfl, ?_, ?_, ?_, ?_, ?_, ?_⟩
  · simp only [switchMode_core, hl.1, hs.1]
  · intro i hi
    simp only [switchMode_core]
    rw [switchMode_load_R mode _ i hi, switchMode_save_R _ _ i (by omega)]
  · simp only [switchMode_core, hl.2.1, hs.2.1]
  · simp only [switchMode_core, hl.2.2.1, hs.2.2.1]
  · simp only [switchMode_core, hl.2.2.2, hs.2.2.2]
  · intro h1 h2 i hi
    simp only [switchMode_core]
    rw [switchMode_load_R_notFIQ mode _ h2 i (by omega), switchMode_save_R_notFIQ _ _ h1]

/-- C1: with the core in a recognised mode `M`, `armcpu_switchMode(M')` for a
recognised mode `M'` followed by `armcpu_switchMode(M)` restores the live
registers `R0`-`R15` and the `CPSR`, and the live `SPSR` as well when `M` is
one of `FIQ`, `IRQ`, `SVC`, `ABT`, `UND`. -/
theorem armcpu_switchMode_roundtrip (armcpu : armcpu_ptr) (M' : Nat) (s : NDS)
    (hM : recognisedMode (s.core armcpu).CPSR.mode = true)
    (hM' : recognisedMode M' = true) :
    ((armcpu_switchMode armcpu (s.core armcpu).CPSR.mode
        (armcpu_switchMode armcpu M' s).2).2.core armcpu).R = (s.core armcpu).R
      ∧ ((armcpu_switchMode armcpu (s.core armcpu).CPSR.mode
        (armcpu_switchMode armcpu M' s).2).2.core armcpu).CPSR = (s.core armcpu).CPSR
      ∧ (privilegedMode (s.core armcpu).CPSR.mode = true →
          ((armcpu_switchMode armcpu (s.core armcpu).CPSR.mode
            (armcpu_switchMode armcpu M' s).2).2.core armcpu).SPSR = (s.core armcpu).SPSR) := by
  rw [core_switchMode, core_switchMode]
  exact ⟨switchMode_core_roundtrip_R _ _ _ rfl hM hM',
    switchMode_core_roundtrip_CPSR _ _ _ rfl hM,
    fun hp => switchMode_core_roundtrip_SPSR _ _ _ rfl hp hM'⟩

/-- C6: with the core in a recognised mode `M`, `armcpu_switchMode(M')` for a
recognised `M'` that uses another bank (`M ≠ M'` and not the pair `USR`,
`SYS`) leaves the live `R13`/`R14` of before in the shadows of the bank of
`M` and the shadows of the bank of `M'` of before in the live `R13`/`R14`;
the `SPSR` shadow of a privileged `M` holds the live `SPSR` of before, the
live `SPSR` is the `SPSR` shadow of before of a privileged `M'`; and when
exactly one of `M`, `M'` is `FIQ`, the live `R8`-`R12` and the shadows
`R8_fiq`-`R12_fiq` are exchanged. -/
theorem armcpu_switchMode_banks (armcpu : armcpu_ptr) (M' : Nat) (s : NDS)
    (hM : recognisedMode (s.core armcpu).CPSR.mode = true)
    (hM' : recognisedMode M' = true)
    (hne : (s.core armcpu).CPSR.mode ≠ M')
    (hus : ¬((s.core armcpu).CPSR.mode = USR ∧ M' = SYS))
    (hsu : ¬((s.core armcpu).CPSR.mode = SYS ∧ M' = USR)) :
    bankR13 (s.core armcpu).CPSR.mode ((armcpu_switchMode armcpu M' s).2.core armcpu)
        = (s.core armcpu).R 13
      ∧ bankR14 (s.core armcpu).CPSR.mode ((armcpu_switchMode armcpu M' s).2.core armcpu)
        = (s.core armcpu).R 14
      ∧ ((armcpu_switchMode armcpu M' s).2.core armcpu).R 13 = bankR13 M' (s.core armcpu)
      ∧ ((armcpu_switchMode armcpu M' s).2.core armcpu).R 14 = bankR14 M' (s.core armcpu)
      ∧ (privilegedMode (s.core armcpu).CPSR.mode = true →
          bankSPSR (s.core armcpu).CPSR.mode ((armcpu_switchMode armcpu M' s).2.core armcpu)
            = (s.core armcpu).SPSR)
      ∧ (privilegedMode M' = true →
          ((armcpu_switchMode armcpu M' s).2.core armcpu).SPSR = bankSPSR M' (s.core armcpu))
      ∧ (((s.core armcpu).CPSR.mode = FIQ ∧ M' ≠ FIQ)
            ∨ ((s.core armcpu).CPSR.mode ≠ FIQ ∧ M' = FIQ) →
          ((armcpu_switchMode armcpu M' s).2.core armcpu).R 8 = (s.core armcpu).R8_fiq
            ∧ ((armcpu_switchMode armcpu M' s).2.core armcpu).R8_fiq = (s.core armcpu).R 8
            ∧ ((armcpu_switchMode armcpu M' s).2.core armcpu).R 9 = (s.core armcpu).R9_fiq
            ∧ ((armcpu_switchMode armcpu M' s).2.core armcpu).R9_fiq = (s.core armcpu).R 9
            ∧ ((armcpu_switchMode armcpu M' s).2.core armcpu).R 10 = (s.core armcpu).R10_fiq
            ∧ ((armcpu_switchMode armcpu M' s).2.core armcpu).R10_fiq = (s.core armcpu).R 10
            ∧ ((armcpu_switchMode armcpu M' s).2.core armcpu).R 11 = (s.core armcpu).R11_fiq
            ∧ ((armcpu_switchMode armcpu M' s).2.core armcpu).R11_fiq = (s.core armcpu).R 11
            ∧ ((armcpu_switchMode armcpu M' s).2.core armcpu).R 12 = (s.core armcpu).R12_fiq
            ∧ ((armcpu_switchMode armcpu M' s).2.core armcpu).R12_fiq
                = (s.core armcpu).R 12) := by
  rw [core_switchMode]
  exact switchMode_core_banks _ _ _ rfl hM hM' hne hus hsu

/-- C2: for each defined exception kind, after `armcpu_exception(cpu, kind)`
the live `SPSR` is the `CPSR` of before, the mode is the one of the
kind-to-mode table, `I` is 1 and `T` is 0, `R14` is the `next_instruction` of
before, `R15` and `next_instruction` are `intVector + kind` modulo `2^32`,
and `instruct_adr` and `instruction` are unchanged. -/
theorem armcpu_exception_entry (cpu : armcpu_ptr) (number : Nat) (s : NDS)
    (h : definedKind number = true) :
    ((armcpu_exception cpu number s).core cpu).SPSR = (s.core cpu).CPSR
      ∧ ((armcpu_exception cpu number s).core cpu).CPSR.mode = kindMode number
      ∧ ((armcpu_exception cpu number s).core cpu).CPSR.I = true
      ∧ ((armcpu_exception cpu number s).core cpu).CPSR.T = false
      ∧ ((armcpu_exception cpu number s).core cpu).R 14 = (s.core cpu).next_instruction
      ∧ ((armcpu_exception cpu number s).core cpu).R 15
          = ((s.core cpu).intVector + number) % 2 ^ 32
      ∧ ((armcpu_exception cpu number s).core cpu).next_instruction
          = ((s.core cpu).intVector + number) % 2 ^ 32
      ∧ ((armcpu_exception cpu number s).core cpu).instruct_adr = (s.core cpu).instruct_adr
      ∧ ((armcpu_exception cpu number s).core cpu).instruction = (s.core cpu).instruction := by
  have hf := switchMode_core_frame (kindMode number) (s.core cpu)
  have hm : kindMode number &&& 0x1F = kindMode number := by
    rw [definedKind_iff] at h
    rcases h with rfl | rfl | rfl | rfl | rfl | rfl | rfl <;> decide
  rw [core_exception, exception_mode_defined number s h]
  refine ⟨rfl, hm, rfl, rfl, ?_, ?_, rfl, hf.1, hf.2.2.1⟩
  · simp [writeR]
  · simp [writeR]

/-- C2, at a concrete input: a software interrupt taken by the first core in
`USR` mode, compact encoding. -/
theorem armcpu_exception_entry_witness :
    definedKind EXCEPTION_SWI = true
      ∧ ((armcpu_exception armcpu_ptr.NDS_ARM9 EXCEPTION_SWI
            (sampleNDS USR true 0x02000102)).core armcpu_ptr.NDS_ARM9).CPSR.mode
          = kindMode EXCEPTION_SWI
      ∧ ((armcpu_exception armcpu_ptr.NDS_ARM9 EXCEPTION_SWI
            (sampleNDS USR true 0x02000102)).core armcpu_ptr.NDS_ARM9).R 14
          = ((sampleNDS USR true 0x02000102).core armcpu_ptr.NDS_ARM9).next_instruction :=
  ⟨by decide,
    (armcpu_exception_entry armcpu_ptr.NDS_ARM9 EXCEPTION_SWI (sampleNDS USR true 0x02000102)
      (by decide)).2.1,
    (armcpu_exception_entry armcpu_ptr.NDS_ARM9 EXCEPTION_SWI (sampleNDS USR true 0x02000102)
      (by decide)).2.2.2.2.1⟩

/-- C10, as the code has it: `armcpu_exception` with the reserved kind `0x14`
calls `emu_halt` and then runs the same entry sequence as for the other
kinds, with `USR` as the target mode: afterwards `execute` is clear, the live
`SPSR` is the `CPSR` of before, the `CPSR` has mode `USR`, `T` = 0 and
`I` = 1 and is otherwise unchanged, `R14` is the `next_instruction` of
before, `R15` and `next_instruction` are `intVector + 0x14` modulo `2^32`,
and `instruct_adr` and `instruction` are unchanged. -/
theorem armcpu_exception_reserved (cpu : armcpu_ptr) (s : NDS) :
    (armcpu_exception cpu EXCEPTION_RESERVED_0x14 s).execute = false
      ∧ ((armcpu_exception cpu EXCEPTION_RESERVED_0x14 s).core cpu).SPSR = (s.core cpu).CPSR
      ∧ ((armcpu_exception cpu EXCEPTION_RESERVED_0x14 s).core cpu).CPSR
          = { (s.core cpu).CPSR with mode := USR, T := false, I := true }
      ∧ ((armcpu_exception cpu EXCEPTION_RESERVED_0x14 s).core cpu).R 14
          = (s.core cpu).next_instruction
      ∧ ((armcpu_exception cpu EXCEPTION_RESERVED_0x14 s).core cpu).R 15
          = ((s.core cpu).intVector + 0x14) % 2 ^ 32
      ∧ ((armcpu_exception cpu EXCEPTION_RESERVED_0x14 s).core cpu).next_instruction
          = ((s.core cpu).intVector + 0x14) % 2 ^ 32
      ∧ ((armcpu_exception cpu EXCEPTION_RESERVED_0x14 s).core cpu).instruct_adr
          = (s.core cpu).instruct_adr
      ∧ ((armcpu_exception cpu EXCEPTION_RESERVED_0x14 s).core cpu).instruction
          = (s.core cpu).instruction := by
  have hm : exception_mode EXCEPTION_RESERVED_0x14 s = (USR, emu_halt s) := rfl
  have hf := switchMode_core_frame USR (s.core cpu)
  have hl : USR &&& 0x1F = USR := by decide
  rw [execute_exception, core_exception, hm]
  refine ⟨rfl, rfl, ?_, ?_, ?_, rfl, hf.1, hf.2.2.1⟩
  · simp only [hl]
  · simp [writeR]
  · simp [writeR, EXCEPTION_RESERVED_0x14]

/-- C10 fails as stated: the first core in `SVC` mode with `R14 = 0x10E` and
`next_instruction = 0x02000004` takes the reserved exception kind; afterwards
it is in `USR` mode, `R14` is `0x02000004`, `next_instruction` is
`0xFFFF0014` and the supervisor bank holds the old `R13`, so neither the live
registers, nor the `CPSR`, nor the shadow banks, nor the pipeline registers
are as before. -/
theorem armcpu_exception_reserved_counterexample :
    ((sampleNDS SVC false 0x02000004).core armcpu_ptr.NDS_ARM9).CPSR.mode = SVC
      ∧ ((armcpu_exception armcpu_ptr.NDS_ARM9 EXCEPTION_RESERVED_0x14
            (sampleNDS SVC false 0x02000004)).core armcpu_ptr.NDS_ARM9).CPSR.mode = USR
      ∧ ((sampleNDS SVC false 0x02000004).core armcpu_ptr.NDS_ARM9).R 14 = 0x10E
      ∧ ((armcpu_exception armcpu_ptr.NDS_ARM9 EXCEPTION_RESERVED_0x14
            (sampleNDS SVC false 0x02000004)).core armcpu_ptr.NDS_ARM9).R 14 = 0x02000004
      ∧ ((armcpu_exception armcpu_ptr.NDS_ARM9 EXCEPTION_RESERVED_0x14
            (sampleNDS SVC false 0x02000004)).core armcpu_ptr.NDS_ARM9).next_instruction
          = 0xFFFF0014
      ∧ ((sampleNDS SVC false 0x02000004).core armcpu_ptr.NDS_ARM9).R13_svc = 0x313
      ∧ ((armcpu_exception armcpu_ptr.NDS_ARM9 EXCEPTION_RESERVED_0x14
            (sampleNDS SVC false 0x02000004)).core armcpu_ptr.NDS_ARM9).R13_svc = 0x10D
      ∧ (armcpu_exception armcpu_ptr.NDS_ARM9 EXCEPTION_RESERVED_0x14
            (sampleNDS SVC false 0x02000004)).core armcpu_ptr.NDS_ARM9
          ≠ (sampleNDS SVC false 0x02000004).core armcpu_ptr.NDS_ARM9 :=
  ⟨by decide, by decide, by decide, by decide, by decide, by decide, by decide,
    fun h => absurd (congrArg (fun c => c.next_instruction) h) (by decide)⟩

/-- C3: `armcpu_prefetch` sets `instruct_adr` to `next_instruction &
0xFFFFFFFC` (`T` = 0) or `next_instruction & 0xFFFFFFFE` (`T` = 1),
`next_instruction` to `instruct_adr + 4` or `+ 2`, `R15` to `instruct_adr + 8`
or `+ 4`, all modulo `2^32`, and `instruction` to the word or halfword the
memory layer returns for `instruct_adr`; nothing else in the machine
changes. -/
theorem armcpu_prefetch_spec (mem : MemoryLayer) (PROCNUM : Nat) (s : NDS) :
    ((armcpu_prefetch mem PROCNUM s).2.core (ARMPROC PROCNUM)).instruct_adr
        = (s.core (ARMPROC PROCNUM)).next_instruction
            &&& (if (s.core (ARMPROC PROCNUM)).CPSR.T = true then 0xFFFFFFFE else 0xFFFFFFFC)
      ∧ ((armcpu_prefetch mem PROCNUM s).2.core (ARMPROC PROCNUM)).next_instruction
        = (((armcpu_prefetch mem PROCNUM s).2.core (ARMPROC PROCNUM)).instruct_adr
            + (if (s.core (ARMPROC PROCNUM)).CPSR.T = true then 2 else 4)) % 2 ^ 32
      ∧ ((armcpu_prefetch mem PROCNUM s).2.core (ARMPROC PROCNUM)).R 15
        = (((armcpu_prefetch mem PROCNUM s).2.core (ARMPROC PROCNUM)).instruct_adr
            + (if (s.core (ARMPROC PROCNUM)).CPSR.T = true then 4 else 8)) % 2 ^ 32
      ∧ ((armcpu_prefetch mem PROCNUM s).2.core (ARMPROC PROCNUM)).instruction
        = (if (s.core (ARMPROC PROCNUM)).CPSR.T = true then
            mem._MMU_read16 PROCNUM
              ((armcpu_prefetch mem PROCNUM s).2.core (ARMPROC PROCNUM)).instruct_adr
          else
            mem._MMU_read32 PROCNUM
              ((armcpu_prefetch mem PROCNUM s).2.core (ARMPROC PROCNUM)).instruct_adr)
      ∧ (armcpu_prefetch mem PROCNUM s).2
        = s.setCore (ARMPROC PROCNUM)
            { s.core (ARMPROC PROCNUM) with
              instruct_adr :=
                ((armcpu_prefetch mem PROCNUM s).2.core (ARMPROC PROCNUM)).instruct_adr
              next_instruction :=
                ((armcpu_prefetch mem PROCNUM s).2.core (ARMPROC PROCNUM)).next_instruction
              R := writeR (s.core (ARMPROC PROCNUM)).R 15
                (((armcpu_prefetch mem PROCNUM s).2.core (ARMPROC PROCNUM)).R 15)
              instruction :=
                ((armcpu_prefetch mem PROCNUM s).2.core (ARMPROC PROCNUM)).instruction } := by
  rw [prefetch_snd, core_setCore]
  unfold prefetch_core
  cases hT : (s.core (ARMPROC PROCNUM)).CPSR.T <;> simp [writeR]

/-- C8, as the code has it: after `armcpu_prefetch` the status register is
the one of before and `next_instruction` is `instruct_adr + 4` (`T` = 0) or
`instruct_adr + 2` (`T` = 1) modulo `2^32`; so `instruct_adr ≤
next_instruction` with a gap of exactly 4 or 2 as long as that sum fits 32
bits, and otherwise `instruct_adr` is the last word (`0xFFFFFFFC`) or
halfword (`0xFFFFFFFE`) address and `next_instruction` has wrapped to 0. -/
theorem armcpu_prefetch_gap (mem : MemoryLayer) (PROCNUM : Nat) (s : NDS) :
    ((armcpu_prefetch mem PROCNUM s).2.core (ARMPROC PROCNUM)).CPSR
        = (s.core (ARMPROC PROCNUM)).CPSR
      ∧ ((armcpu_prefetch mem PROCNUM s).2.core (ARMPROC PROCNUM)).next_instruction
        = (((armcpu_prefetch mem PROCNUM s).2.core (ARMPROC PROCNUM)).instruct_adr
            + (if (s.core (ARMPROC PROCNUM)).CPSR.T = true then 2 else 4)) % 2 ^ 32
      ∧ (((armcpu_prefetch mem PROCNUM s).2.core (ARMPROC PROCNUM)).instruct_adr
            + (if (s.core (ARMPROC PROCNUM)).CPSR.T = true then 2 else 4) < 2 ^ 32 →
          ((armcpu_prefetch mem PROCNUM s).2.core (ARMPROC PROCNUM)).instruct_adr
              ≤ ((armcpu_prefetch mem PROCNUM s).2.core (ARMPROC PROCNUM)).next_instruction
            ∧ ((armcpu_prefetch mem PROCNUM s).2.core (ARMPROC PROCNUM)).next_instruction
                - ((armcpu_prefetch mem PROCNUM s).2.core (ARMPROC PROCNUM)).instruct_adr
              = (if (s.core (ARMPROC PROCNUM)).CPSR.T = true then 2 else 4))
      ∧ (¬ ((armcpu_prefetch mem PROCNUM s).2.core (ARMPROC PROCNUM)).instruct_adr
            + (if (s.core (ARMPROC PROCNUM)).CPSR.T = true then 2 else 4) < 2 ^ 32 →
          ((armcpu_prefetch mem PROCNUM s).2.core (ARMPROC PROCNUM)).instruct_adr
              = (if (s.core (ARMPROC PROCNUM)).CPSR.T = true then 0xFFFFFFFE else 0xFFFFFFFC)
            ∧ ((armcpu_prefetch mem PROCNUM s).2.core (ARMPROC PROCNUM)).next_instruction
              = 0) := by
  rw [prefetch_snd, core_setCore]
  unfold prefetch_core
  have h4 : (s.core (ARMPROC PROCNUM)).next_instruction &&& 0xFFFFFFFC ≤ 0xFFFFFFFC :=
    Nat.and_le_right
  have h2 : (s.core (ARMPROC PROCNUM)).next_instruction &&& 0xFFFFFFFE ≤ 0xFFFFFFFE :=
    Nat.and_le_right
  cases hT : (s.core (ARMPROC PROCNUM)).CPSR.T
  · simp only [if_true, Bool.false_eq_true, if_false]
    refine ⟨trivial, trivial, ?_, ?_⟩ <;> intro h <;> omega
  · simp only [if_true, Bool.true_eq_false, if_false]
    refine ⟨trivial, trivial, ?_, ?_⟩ <;> intro h <;> omega

/-- C8 fails as stated: the first core, standard encoding, about to fetch at
`0xFFFFFFFC`; after `armcpu_prefetch` `instruct_adr` is `0xFFFFFFFC` and
`next_instruction` is 0, so `instruct_adr ≤ next_instruction` does not
hold. -/
theorem armcpu_prefetch_gap_counterexample :
    ((armcpu_prefetch sampleMemory 0 (sampleNDS SYS false 0xFFFFFFFC)).2.core
        (ARMPROC 0)).instruct_adr = 0xFFFFFFFC
      ∧ ((armcpu_prefetch sampleMemory 0 (sampleNDS SYS false 0xFFFFFFFC)).2.core
        (ARMPROC 0)).next_instruction = 0
      ∧ ¬ ((armcpu_prefetch sampleMemory 0 (sampleNDS SYS false 0xFFFFFFFC)).2.core
            (ARMPROC 0)).instruct_adr
          ≤ ((armcpu_prefetch sampleMemory 0 (sampleNDS SYS false 0xFFFFFFFC)).2.core
            (ARMPROC 0)).next_instruction := by
  decide

/-- C9: `setIF` fails its assertion exactly when bit 21 of `flag` is set, and
then the machine, both pending-interrupt masks included, is as before;
otherwise the mask of the selected core becomes `old | flag`, which keeps
every bit that was set, and the mask of the other core is unchanged. -/
theorem setIF_spec (PROCNUM : Fin 2) (flag : Nat) (s : NDS) :
    (flag.testBit 21 = true → setIF PROCNUM flag s = Except.error s)
      ∧ (flag.testBit 21 = false →
          ∃ s', setIF PROCNUM flag s = Except.ok s'
            ∧ s'.reg_IF_bits PROCNUM = s.reg_IF_bits PROCNUM ||| flag
            ∧ (∀ q : Fin 2, q ≠ PROCNUM → s'.reg_IF_bits q = s.reg_IF_bits q)
            ∧ (∀ i : Nat, (s.reg_IF_bits PROCNUM).testBit i = true →
                (s'.reg_IF_bits PROCNUM).testBit i = true)) := by
  constructor
  · intro hb
    have h := (land_bit21 flag).mpr hb
    simp only [setIF, h, if_true, ne_eq, not_false_eq_true]
  · intro hb
    have h : ¬ flag &&& 0x00200000 ≠ 0 := by
      intro hne
      rw [(land_bit21 flag).mp hne] at hb
      exact absurd hb (by decide)
    refine ⟨_, by simp only [setIF, h, if_false]; rfl, ?_, ?_, ?_⟩
    · simp [NDS_Reschedule]
    · intro q hq
      simp [NDS_Reschedule, hq]
    · intro i hi
      simp [NDS_Reschedule, Nat.testBit_or, hi]

/-- C4: after `armcpu_init(cpu, adr)` on a core that carries its own
identity, `T` is bit 0 of `adr`, `instruct_adr` is `adr & 0xFFFFFFFC` when
that bit is 0 and `adr & 0xFFFFFFFE` when it is 1, `R15` is `instruct_adr + 8`
(`T` = 0) or `instruct_adr + 4` (`T` = 1) modulo `2^32`, the mode is `SYS`,
`R0`-`R14` and every banked shadow register are 0, and `intVector` is
`0xFFFF0000` for core 0 and 0 for core 1. -/
theorem armcpu_init_spec (mem : MemoryLayer) (armcpu : armcpu_ptr) (adr : Nat) (s : NDS)
    (h : ownIdentity s armcpu = true) :
    ((armcpu_init mem armcpu adr s).core armcpu).CPSR.T = adr.testBit 0
      ∧ ((armcpu_init mem armcpu adr s).core armcpu).instruct_adr
          = adr &&& (if adr.testBit 0 = true then 0xFFFFFFFE else 0xFFFFFFFC)
      ∧ ((armcpu_init mem armcpu adr s).core armcpu).R 15
          = (((armcpu_init mem armcpu adr s).core armcpu).instruct_adr
              + (if adr.testBit 0 = true then 4 else 8)) % 2 ^ 32
      ∧ ((armcpu_init mem armcpu adr s).core armcpu).CPSR.mode = SYS
      ∧ (∀ i : Fin 16, i ≠ 15 → ((armcpu_init mem armcpu adr s).core armcpu).R i = 0)
      ∧ ((armcpu_init mem armcpu adr s).core armcpu).R13_usr = 0
      ∧ ((armcpu_init mem armcpu adr s).core armcpu).R14_usr = 0
      ∧ ((armcpu_init mem armcpu adr s).core armcpu).R13_svc = 0
      ∧ ((armcpu_init mem armcpu adr s).core armcpu).R14_svc = 0
      ∧ ((armcpu_init mem armcpu adr s).core armcpu).R13_abt = 0
      ∧ ((armcpu_init mem armcpu adr s).core armcpu).R14_abt = 0
      ∧ ((armcpu_init mem armcpu adr s).core armcpu).R13_und = 0
      ∧ ((armcpu_init mem armcpu adr s).core armcpu).R14_und = 0
      ∧ ((armcpu_init mem armcpu adr s).core armcpu).R13_irq = 0
      ∧ ((armcpu_init mem armcpu adr s).core armcpu).R14_irq = 0
      ∧ ((armcpu_init mem armcpu adr s).core armcpu).R8_fiq = 0
      ∧ ((armcpu_init mem armcpu adr s).core armcpu).R9_fiq = 0
      ∧ ((armcpu_init mem armcpu adr s).core armcpu).R10_fiq = 0
      ∧ ((armcpu_init mem armcpu adr s).core armcpu).R11_fiq = 0
      ∧ ((armcpu_init mem armcpu adr s).core armcpu).R12_fiq = 0
      ∧ ((armcpu_init mem armcpu adr s).core armcpu).R13_fiq = 0
      ∧ ((armcpu_init mem armcpu adr s).core armcpu).R14_fiq = 0
      ∧ ((armcpu_init mem armcpu adr s).core armcpu).SPSR_svc.val = 0
      ∧ ((armcpu_init mem armcpu adr s).core armcpu).SPSR_abt.val = 0
      ∧ ((armcpu_init mem armcpu adr s).core armcpu).SPSR_und.val = 0
      ∧ ((armcpu_init mem armcpu adr s).core armcpu).SPSR_irq.val = 0
      ∧ ((armcpu_init mem armcpu adr s).core armcpu).SPSR_fiq.val = 0
      ∧ ((armcpu_init mem armcpu adr s).core armcpu).intVector
          = (if (s.core armcpu).proc_ID = 0 then 0xFFFF0000 else 0) := by
  rw [core_init mem armcpu adr s h]
  unfold prefetch_core
  have hv : (Status_Reg.ofVal 0).val = 0 := by decide
  have hs : (Status_Reg.ofVal SYS).mode = SYS := by decide
  cases hT : adr.testBit 0
  · simp only [if_true, land_FFFFFFFE_FFFFFFFC, hv, hs, Bool.false_eq_true, if_false]
    refine ⟨?_, ?_, ?_, ?_, ?_, ?_, ?_, ?_, ?_, ?_, ?_, ?_, ?_, ?_, ?_, ?_, ?_, ?_, ?_, ?_, ?_, ?_, ?_, ?_, ?_, ?_, ?_, ?_⟩ <;>
      first
        | rfl
        | (intro i hi; simp [writeR, hi])
        | simp [writeR]
  · simp only [if_true, land_FFFFFFFE_FFFFFFFE, hv, hs, Bool.true_eq_false, if_false]
    refine ⟨?_, ?_, ?_, ?_, ?_, ?_, ?_, ?_, ?_, ?_, ?_, ?_, ?_, ?_, ?_, ?_, ?_, ?_, ?_, ?_, ?_, ?_, ?_, ?_, ?_, ?_, ?_, ?_⟩ <;>
      first
        | rfl
        | (intro i hi; simp [writeR, hi])
        | simp [writeR]

/-- C4, at a concrete input: the second core reset to the compact-encoding
entry `0x03800001`. -/
theorem armcpu_init_spec_witness :
    ownIdentity (sampleNDS USR false 0x02000004) armcpu_ptr.NDS_ARM7 = true
      ∧ ((armcpu_init sampleMemory armcpu_ptr.NDS_ARM7 0x03800001
            (sampleNDS USR false 0x02000004)).core armcpu_ptr.NDS_ARM7).CPSR.T
          = Nat.testBit 0x03800001 0
      ∧ ((armcpu_init sampleMemory armcpu_ptr.NDS_ARM7 0x03800001
            (sampleNDS USR false 0x02000004)).core armcpu_ptr.NDS_ARM7).instruct_adr
          = 0x03800001 &&& (if Nat.testBit 0x03800001 0 = true then 0xFFFFFFFE
              else 0xFFFFFFFC) :=
  ⟨by decide,
    (armcpu_init_spec sampleMemory armcpu_ptr.NDS_ARM7 0x03800001
      (sampleNDS USR false 0x02000004) (by decide)).1,
    (armcpu_init_spec sampleMemory armcpu_ptr.NDS_ARM7 0x03800001
      (sampleNDS USR false 0x02000004) (by decide)).2.1⟩

/-- C5: `armcpu_irqException` on a core that carries its own identity returns
`TRUE`; afterwards `waitIRQ` is clear, the mode is `IRQ`, `I` = 1, `T` = 0,
the live `SPSR` is the `CPSR` of before, `instruct_adr` is `(intVector + 0x18)
& 0xFFFFFFFC`, `instruction` is the word the memory layer returns for that
address, `next_instruction` is `instruct_adr + 4` and `R15` is
`instruct_adr + 8`, in 32-bit arithmetic. -/
theorem armcpu_irqException_spec (mem : MemoryLayer) (armcpu : armcpu_ptr) (s : NDS)
    (h : ownIdentity s armcpu = true) :
    (armcpu_irqException mem armcpu s).1 = true
      ∧ ((armcpu_irqException mem armcpu s).2.core armcpu).waitIRQ = false
      ∧ ((armcpu_irqException mem armcpu s).2.core armcpu).CPSR.mode = IRQ
      ∧ ((armcpu_irqException mem armcpu s).2.core armcpu).CPSR.I = true
      ∧ ((armcpu_irqException mem armcpu s).2.core armcpu).CPSR.T = false
      ∧ ((armcpu_irqException mem armcpu s).2.core armcpu).SPSR = (s.core armcpu).CPSR
      ∧ ((armcpu_irqException mem armcpu s).2.core armcpu).instruct_adr
          = (((s.core armcpu).intVector + 0x18) % 2 ^ 32) &&& 0xFFFFFFFC
      ∧ ((armcpu_irqException mem armcpu s).2.core armcpu).instruction
          = mem._MMU_read32 (s.core armcpu).proc_ID
              ((armcpu_irqException mem armcpu s).2.core armcpu).instruct_adr
      ∧ ((armcpu_irqException mem armcpu s).2.core armcpu).next_instruction
          = (((armcpu_irqException mem armcpu s).2.core armcpu).instruct_adr + 4) % 2 ^ 32
      ∧ ((armcpu_irqException mem armcpu s).2.core armcpu).R 15
          = (((armcpu_irqException mem armcpu s).2.core armcpu).instruct_adr + 8)
              % 2 ^ 32 := by
  have hl : IRQ &&& 0x1F = IRQ := by decide
  rw [core_irqException mem armcpu s h]
  unfold prefetch_core
  refine ⟨rfl, ?_⟩
  simp [hl, writeR]

/-- C5, at a concrete input: an interrupt taken by the first core while it
runs compact code in `USR` mode. -/
theorem armcpu_irqException_spec_witness :
    ownIdentity (sampleNDS USR true 0x02000102) armcpu_ptr.NDS_ARM9 = true
      ∧ ((armcpu_irqException sampleMemory armcpu_ptr.NDS_ARM9
            (sampleNDS USR true 0x02000102)).2.core armcpu_ptr.NDS_ARM9).waitIRQ = false
      ∧ ((armcpu_irqException sampleMemory armcpu_ptr.NDS_ARM9
            (sampleNDS USR true 0x02000102)).2.core armcpu_ptr.NDS_ARM9).CPSR.mode = IRQ :=
  ⟨by decide,
    (armcpu_irqException_spec sampleMemory armcpu_ptr.NDS_ARM9
      (sampleNDS USR true 0x02000102) (by decide)).2.1,
    (armcpu_irqException_spec sampleMemory armcpu_ptr.NDS_ARM9
      (sampleNDS USR true 0x02000102) (by decide)).2.2.1⟩

/-- C1, at a concrete input: the first core in `IRQ` mode switched to `FIQ`
and back. -/
theorem armcpu_switchMode_roundtrip_witness :
    recognisedMode ((sampleNDS IRQ false 0x02000004).core armcpu_ptr.NDS_ARM9).CPSR.mode = true
      ∧ recognisedMode FIQ = true
      ∧ ((armcpu_switchMode armcpu_ptr.NDS_ARM9
            ((sampleNDS IRQ false 0x02000004).core armcpu_ptr.NDS_ARM9).CPSR.mode
            (armcpu_switchMode armcpu_ptr.NDS_ARM9 FIQ
              (sampleNDS IRQ false 0x02000004)).2).2.core armcpu_ptr.NDS_ARM9).R
          = ((sampleNDS IRQ false 0x02000004).core armcpu_ptr.NDS_ARM9).R :=
  ⟨by decide, by decide,
    (armcpu_switchMode_roundtrip armcpu_ptr.NDS_ARM9 FIQ (sampleNDS IRQ false 0x02000004)
      (by decide) (by decide)).1⟩

/-- C6, at a concrete input: the first core in `FIQ` mode switched to
`SVC`. -/
theorem armcpu_switchMode_banks_witness :
    recognisedMode ((sampleNDS FIQ false 0x02000004).core armcpu_ptr.NDS_ARM9).CPSR.mode = true
      ∧ recognisedMode SVC = true
      ∧ bankR13 ((sampleNDS FIQ false 0x02000004).core armcpu_ptr.NDS_ARM9).CPSR.mode
            ((armcpu_switchMode armcpu_ptr.NDS_ARM9 SVC
              (sampleNDS FIQ false 0x02000004)).2.core armcpu_ptr.NDS_ARM9)
          = ((sampleNDS FIQ false 0x02000004).core armcpu_ptr.NDS_ARM9).R 13
      ∧ ((armcpu_switchMode armcpu_ptr.NDS_ARM9 SVC
            (sampleNDS FIQ false 0x02000004)).2.core armcpu_ptr.NDS_ARM9).R 13
          = bankR13 SVC ((sampleNDS FIQ false 0x02000004).core armcpu_ptr.NDS_ARM9) :=
  ⟨by decide, by decide,
    (armcpu_switchMode_banks armcpu_ptr.NDS_ARM9 SVC (sampleNDS FIQ false 0x02000004)
      (by decide) (by decide) (by decide) (by decide) (by decide)).1,
    (armcpu_switchMode_banks armcpu_ptr.NDS_ARM9 SVC (sampleNDS FIQ false 0x02000004)
      (by decide) (by decide) (by decide) (by decide) (by decide)).2.2.1⟩

/-- C11, as the code has it: on a core that carries its own identity,
`armcpu_irqException` leaves the core that `armcpu_exception` for the IRQ
kind, the clearing of `waitIRQ` and `armcpu_prefetch` leave, except for the
link register: `armcpu_irqException` sets `R14` to `instruct_adr + 4` modulo
`2^32`, the other path to the `next_instruction` of before.  The two cores
are equal exactly when `next_instruction` was `instruct_adr + 4`. -/
theorem armcpu_irqException_refines (mem : MemoryLayer) (armcpu : armcpu_ptr) (s : NDS)
    (h : ownIdentity s armcpu = true) :
    (armcpu_irqException mem armcpu s).2.core armcpu
        = { (irqException_as_exception mem armcpu s).core armcpu with
            R := writeR ((irqException_as_exception mem armcpu s).core armcpu).R 14
                  (((s.core armcpu).instruct_adr + 4) % 2 ^ 32) }
      ∧ ((armcpu_irqException mem armcpu s).2.core armcpu).R 14
        = ((s.core armcpu).instruct_adr + 4) % 2 ^ 32
      ∧ ((irqException_as_exception mem armcpu s).core armcpu).R 14
        = (s.core armcpu).next_instruction
      ∧ ((armcpu_irqException mem armcpu s).2.core armcpu
            = (irqException_as_exception mem armcpu s).core armcpu
          ↔ (s.core armcpu).next_instruction
              = ((s.core armcpu).instruct_adr + 4) % 2 ^ 32) := by
  rw [core_irqException mem armcpu s h, core_irqException_as_exception mem armcpu s h]
  unfold prefetch_core
  simp only [if_true]
  refine ⟨?_, ?_, ?_, ?_, ?_⟩
  · simp only [armcpu_t.mk.injEq, true_and, and_true]
    funext i
    simp only [writeR]
    split_ifs <;> simp_all
  · simp [writeR]
  · simp [writeR]
  · intro he
    have h14 := congrArg (fun c => c.R 14) he
    simp [writeR] at h14
    exact h14.symm
  · intro hn
    simp only [armcpu_t.mk.injEq, true_and, and_true]
    funext i
    simp only [writeR]
    split_ifs <;> simp_all

/-- C11, at a concrete input: an interrupt taken by the first core in `USR`
mode, standard encoding. -/
theorem armcpu_irqException_refines_witness :
    ownIdentity (sampleNDS USR false 0x02000004) armcpu_ptr.NDS_ARM9 = true
      ∧ ((armcpu_irqException sampleMemory armcpu_ptr.NDS_ARM9
            (sampleNDS USR false 0x02000004)).2.core armcpu_ptr.NDS_ARM9).R 14
          = (((sampleNDS USR false 0x02000004).core armcpu_ptr.NDS_ARM9).instruct_adr + 4)
              % 2 ^ 32 :=
  ⟨by decide,
    (armcpu_irqException_refines sampleMemory armcpu_ptr.NDS_ARM9
      (sampleNDS USR false 0x02000004) (by decide)).2.1⟩

/-- C11 fails as stated: the first core runs compact code with `instruct_adr =
0x02000000` and `next_instruction = 0x02000102`; `armcpu_irqException` leaves
`R14 = 0x02000004`, the path through `armcpu_exception` leaves
`R14 = 0x02000102`, so the two cores differ and `R14` is not the
`next_instruction` of before. -/
theorem armcpu_irqException_refines_counterexample :
    ((sampleNDS USR true 0x02000102).core armcpu_ptr.NDS_ARM9).next_instruction = 0x02000102
      ∧ ((armcpu_irqException sampleMemory armcpu_ptr.NDS_ARM9
            (sampleNDS USR true 0x02000102)).2.core armcpu_ptr.NDS_ARM9).R 14 = 0x02000004
      ∧ ((irqException_as_exception sampleMemory armcpu_ptr.NDS_ARM9
            (sampleNDS USR true 0x02000102)).core armcpu_ptr.NDS_ARM9).R 14 = 0x02000102
      ∧ (armcpu_irqException sampleMemory armcpu_ptr.NDS_ARM9
            (sampleNDS USR true 0x02000102)).2.core armcpu_ptr.NDS_ARM9
          ≠ (irqException_as_exception sampleMemory armcpu_ptr.NDS_ARM9
              (sampleNDS USR true 0x02000102)).core armcpu_ptr.NDS_ARM9 :=
  ⟨by decide, by decide, by decide,
    fun h => absurd (congrArg (fun c => c.R 14) h) (by decide)⟩

/-- C12, what the code does: `armcpu_prefetch<0>` always reports the cost
the memory layer gives for a 32-bit code fetch at the fetch address, because
its test for the second halfword compares the fetch address with
`instruct_adr + 2` after `instruct_adr` has been overwritten with the fetch
address.  At the first core in compact mode with `instruct_adr = 0x02000000`
and `next_instruction = 0x02000002` (sequential, bit 1 set) and a memory layer
whose 32-bit fetches cost 5, the reported cost is 5, not 0. -/
theorem armcpu_prefetch_thumb_cost :
    (∀ (mem : MemoryLayer) (s : NDS),
        (armcpu_prefetch mem 0 s).1
          = mem.MMU_codeFetchCycles32 0
              ((s.core (ARMPROC 0)).next_instruction
                &&& (if (s.core (ARMPROC 0)).CPSR.T = true then 0xFFFFFFFE
                    else 0xFFFFFFFC)))
      ∧ ((sampleNDS USR true 0x02000002).core (ARMPROC 0)).proc_ID = 0
      ∧ ((sampleNDS USR true 0x02000002).core (ARMPROC 0)).CPSR.T = true
      ∧ ((sampleNDS USR true 0x02000002).core (ARMPROC 0)).next_instruction
          = ((sampleNDS USR true 0x02000002).core (ARMPROC 0)).instruct_adr + 2
      ∧ ((sampleNDS USR true 0x02000002).core (ARMPROC 0)).next_instruction &&& 2 ≠ 0
      ∧ (armcpu_prefetch sampleMemory 0 (sampleNDS USR true 0x02000002)).1 = 5 :=
  ⟨prefetch_cost_core0, by decide, by decide, by decide, by decide, by decide⟩

/-- C13: in standard mode, when the condition field of the fetched
instruction is not `0xE` and the condition test fails, `armcpu_exec` calls
no opcode handler (the execute half yields cost 1 and the machine as it was,
whatever the tables hold), and it returns `MMU_fetchExecuteCycles(1, c)` with
`c` the cost of the `armcpu_prefetch` it performs on the machine of before;
the machine after is the one after that `armcpu_prefetch`. -/
theorem armcpu_exec_condition_fails (mem : MemoryLayer) (ops : OpcodeTables) (PROCNUM : Nat)
    (s : NDS)
    (hT : (s.core (ARMPROC PROCNUM)).CPSR.T = false)
    (hE : CONDITION (s.core (ARMPROC PROCNUM)).instruction ≠ 0x0E)
    (hC : ops.TEST_COND (CONDITION (s.core (ARMPROC PROCNUM)).instruction)
            (CODE (s.core (ARMPROC PROCNUM)).instruction)
            (s.core (ARMPROC PROCNUM)).CPSR = false) :
    exec_execute ops PROCNUM s = (1, s)
      ∧ armcpu_exec mem ops PROCNUM s
        = (mem.MMU_fetchExecuteCycles PROCNUM 1 (armcpu_prefetch mem PROCNUM s).1,
            (armcpu_prefetch mem PROCNUM s).2) := by
  have h1 : exec_execute ops PROCNUM s = (1, s) := by
    simp [exec_execute, hT, hE, hC]
  exact ⟨h1, by simp only [armcpu_exec, h1]⟩

/-- C13, at a concrete input: the first core holds an instruction of
condition `EQ` while `Z` is clear, and every handler of the tables would halt
the machine. -/
theorem armcpu_exec_condition_fails_witness :
    (sampleNDS_EQ.core (ARMPROC 0)).CPSR.T = false
      ∧ CONDITION (sampleNDS_EQ.core (ARMPROC 0)).instruction ≠ 0x0E
      ∧ sampleOpcodes.TEST_COND (CONDITION (sampleNDS_EQ.core (ARMPROC 0)).instruction)
          (CODE (sampleNDS_EQ.core (ARMPROC 0)).instruction)
          (sampleNDS_EQ.core (ARMPROC 0)).CPSR = false
      ∧ armcpu_exec sampleMemory sampleOpcodes 0 sampleNDS_EQ
        = (sampleMemory.MMU_fetchExecuteCycles 0 1
              (armcpu_prefetch sampleMemory 0 sampleNDS_EQ).1,
            (armcpu_prefetch sampleMemory 0 sampleNDS_EQ).2) :=
  ⟨by decide, by decide, by decide,
    (armcpu_exec_condition_fails sampleMemory sampleOpcodes 0 sampleNDS_EQ (by decide)
      (by decide) (by decide)).2⟩

/-- C14, as the code has it: after the reset of both cores (in either
order, to any addresses) `TRAPUNDEF`, raised for either core, halts the
emulation, leaves both cores as they are and returns 4, because `armcpu_init`
makes `intVector != 0` and `proc_ID == ARMCPU_ARM9` agree.  The route through
the undefined-instruction vector of the first core (mode `UND`,
`next_instruction` = its vector base + `0x04`, emulation not halted, result 4)
is taken, whichever core raises it, when the two tests disagree for the
raising core. -/
theorem TRAPUNDEF_after_reset (mem : MemoryLayer) (adr9 adr7 : Nat) (cpu : armcpu_ptr) (s : NDS) :
    TRAPUNDEF cpu
        (armcpu_init mem armcpu_ptr.NDS_ARM7 adr7 (armcpu_init mem armcpu_ptr.NDS_ARM9 adr9 s))
      = (4, emu_halt
          (armcpu_init mem armcpu_ptr.NDS_ARM7 adr7
            (armcpu_init mem armcpu_ptr.NDS_ARM9 adr9 s)))
      ∧ TRAPUNDEF cpu
          (armcpu_init mem armcpu_ptr.NDS_ARM9 adr9
            (armcpu_init mem armcpu_ptr.NDS_ARM7 adr7 s))
        = (4, emu_halt
            (armcpu_init mem armcpu_ptr.NDS_ARM9 adr9
              (armcpu_init mem armcpu_ptr.NDS_ARM7 adr7 s)))
      ∧ (∀ s0 : NDS,
          xor (decide ((s0.core cpu).intVector ≠ 0))
              (decide ((s0.core cpu).proc_ID = ARMCPU_ARM9)) = true →
          (TRAPUNDEF cpu s0).1 = 4
            ∧ ((TRAPUNDEF cpu s0).2.core armcpu_ptr.NDS_ARM9).CPSR.mode = UND
            ∧ ((TRAPUNDEF cpu s0).2.core armcpu_ptr.NDS_ARM9).next_instruction
                = ((s0.core armcpu_ptr.NDS_ARM9).intVector + 0x04) % 2 ^ 32
            ∧ (TRAPUNDEF cpu s0).2.execute = s0.execute) := by
  refine ⟨?_, ?_, fun s0 h => TRAPUNDEF_route cpu s0 h⟩
  · apply TRAPUNDEF_resetVectors
    apply init_resetVectors
    cases cpu
    · exact Or.inr (init_resetVectors mem _ adr9 s _ (Or.inl rfl))
    · exact Or.inl rfl
  · apply TRAPUNDEF_resetVectors
    apply init_resetVectors
    cases cpu
    · exact Or.inl rfl
    · exact Or.inr (init_resetVectors mem _ adr7 s _ (Or.inl rfl))

/-- C14 fails as stated: after the reset of the first core to `0x00000000`
(and of the second to `0x03800000`) `TRAPUNDEF` raised for the first core
halts the emulation and leaves that core in `SYS` mode with
`next_instruction = 4`, not in `UND` mode at `0xFFFF0004`; raised for the
second core it halts as well. -/
theorem TRAPUNDEF_after_reset_counterexample :
    sampleReset.execute = true
      ∧ (sampleReset.core armcpu_ptr.NDS_ARM9).intVector = 0xFFFF0000
      ∧ (TRAPUNDEF armcpu_ptr.NDS_ARM9 sampleReset).2.execute = false
      ∧ ((TRAPUNDEF armcpu_ptr.NDS_ARM9 sampleReset).2.core armcpu_ptr.NDS_ARM9).CPSR.mode = SYS
      ∧ ((TRAPUNDEF armcpu_ptr.NDS_ARM9 sampleReset).2.core
          armcpu_ptr.NDS_ARM9).next_instruction = 0x00000004
      ∧ (TRAPUNDEF armcpu_ptr.NDS_ARM7 sampleReset).2.execute = false
      ∧ ((TRAPUNDEF armcpu_ptr.NDS_ARM7 sampleReset).2.core armcpu_ptr.NDS_ARM9).CPSR.mode
          = SYS := by
  decide

/-- C15: `read_cpu_reg` returns `R[n]` for `n ≤ 14`, the full `CPSR` value
for `n = 16` and 0 for `n > 16`, and never changes the machine; `set_cpu_reg`
with `n > 16` leaves the machine unchanged. -/
theorem read_cpu_reg_spec (armcpu : armcpu_ptr) (s : NDS) :
    (∀ i : Fin 16, i.val ≤ 14 → (read_cpu_reg armcpu i.val s).1 = (s.core armcpu).R i)
      ∧ (read_cpu_reg armcpu 16 s).1 = (s.core armcpu).CPSR.val
      ∧ (∀ reg_num : Nat, 16 < reg_num → (read_cpu_reg armcpu reg_num s).1 = 0)
      ∧ (∀ reg_num : Nat, (read_cpu_reg armcpu reg_num s).2 = s)
      ∧ (∀ reg_num value : Nat, 16 < reg_num → set_cpu_reg armcpu reg_num value s = s) := by
  refine ⟨?_, ?_, ?_, ?_, ?_⟩
  · intro i hi
    simp [read_cpu_reg, hi]
  · simp [read_cpu_reg]
  · intro n hn
    have h1 : ¬ n ≤ 14 := by omega
    have h2 : n ≠ 15 := by omega
    have h3 : n ≠ 16 := by omega
    simp [read_cpu_reg, h1, h2, h3]
  · intro n
    unfold read_cpu_reg
    split_ifs <;> rfl
  · intro n v hn
    have h1 : ¬ n ≤ 14 := by omega
    have h2 : n ≠ 15 := by omega
    simp [set_cpu_reg, h1, h2]

/-- C16, as the code has it: for the general registers 0 to 14,
`set_cpu_reg(n, v)` followed by `read_cpu_reg(n)` returns `v`; for register 15
`set_cpu_reg` writes `next_instruction` while `read_cpu_reg` returns
`instruct_adr`, which the write leaves as it was. -/
theorem set_read_cpu_reg (armcpu : armcpu_ptr) (value : Nat) (s : NDS) :
    (∀ i : Fin 16, i.val ≤ 14 →
        (read_cpu_reg armcpu i.val (set_cpu_reg armcpu i.val value s)).1 = value)
      ∧ ((set_cpu_reg armcpu 15 value s).core armcpu).next_instruction = value
      ∧ (read_cpu_reg armcpu 15 (set_cpu_reg armcpu 15 value s)).1
          = (s.core armcpu).instruct_adr := by
  refine ⟨?_, ?_, ?_⟩
  · intro i hi
    simp [read_cpu_reg, set_cpu_reg, hi, core_setCore, writeR]
  · simp [set_cpu_reg, core_setCore]
  · simp [read_cpu_reg, set_cpu_reg, core_setCore]

/-- C16 fails as stated: on the first core with `instruct_adr = 0x02000000`,
`set_cpu_reg(15, 0x02000100)` followed by `read_cpu_reg(15)` returns
`0x02000000`, not `0x02000100`. -/
theorem set_read_cpu_reg_counterexample :
    ((sampleNDS USR false 0x02000004).core armcpu_ptr.NDS_ARM9).instruct_adr = 0x02000000
      ∧ (read_cpu_reg armcpu_ptr.NDS_ARM9 15
          (set_cpu_reg armcpu_ptr.NDS_ARM9 15 0x02000100
            (sampleNDS USR false 0x02000004))).1 = 0x02000000
      ∧ (read_cpu_reg armcpu_ptr.NDS_ARM9 15
          (set_cpu_reg armcpu_ptr.NDS_ARM9 15 0x02000100
            (sampleNDS USR false 0x02000004))).1 ≠ 0x02000100 := by
  decide

/-- C17: `stall_cpu` applied twice leaves the core that one `stall_cpu`
leaves, which is the core of before with `stalled = 1`; the other core, the
interrupt masks, the run flag and the reschedule count are as before after one
and after two calls; and `unstall_cpu` after any number of `stall_cpu` leaves
`stalled = 0`. -/
theorem stall_cpu_idempotent (armcpu : armcpu_ptr) (s : NDS) :
    (stall_cpu armcpu (stall_cpu armcpu s)).core armcpu = (stall_cpu armcpu s).core armcpu
      ∧ (stall_cpu armcpu s).core armcpu = { s.core armcpu with stalled := 1 }
      ∧ (∀ r : armcpu_ptr, r ≠ armcpu →
          (stall_cpu armcpu s).core r = s.core r
            ∧ (stall_cpu armcpu (stall_cpu armcpu s)).core r = s.core r)
      ∧ (stall_cpu armcpu (stall_cpu armcpu s)).reg_IF_bits = s.reg_IF_bits
      ∧ (stall_cpu armcpu (stall_cpu armcpu s)).execute = s.execute
      ∧ (stall_cpu armcpu (stall_cpu armcpu s)).reschedules = s.reschedules
      ∧ (stall_cpu armcpu s).reg_IF_bits = s.reg_IF_bits
      ∧ (stall_cpu armcpu s).execute = s.execute
      ∧ (stall_cpu armcpu s).reschedules = s.reschedules
      ∧ (∀ n : Nat,
          ((unstall_cpu armcpu (Nat.iterate (stall_cpu armcpu) n s)).core armcpu).stalled
            = 0) := by
  refine ⟨?_, ?_, ?_, ?_, ?_, ?_, ?_, ?_, ?_, ?_⟩
  · simp [stall_cpu, core_setCore, core_printf]
  · simp [stall_cpu, core_setCore, core_printf]
  · intro r hr
    simp [stall_cpu, core_setCore_ne _ _ _ _ hr, core_printf]
  · cases armcpu <;> rfl
  · cases armcpu <;> rfl
  · cases armcpu <;> rfl
  · cases armcpu <;> rfl
  · cases armcpu <;> rfl
  · cases armcpu <;> rfl
  · intro n
    simp [unstall_cpu, core_setCore]

set_option maxHeartbeats 1600000 in
/-- C18: for a target value that is none of the seven recognised modes,
`armcpu_switchMode` prints the wrong-mode diagnostic and loads nothing (the
live `R13`, `R14` and `SPSR` are as before); the registers of a recognised
departing mode are saved in that mode's own bank (`R13`, `R14`, the `SPSR` of
a privileged mode, `R8`-`R12` of `FIQ`), and no other bank is modified. -/
theorem armcpu_switchMode_unrecognised (armcpu : armcpu_ptr) (mode : Nat) (s : NDS)
    (h : recognisedMode mode = false) :
    (armcpu_switchMode armcpu mode s).2.printed
        = s.printed ++ [Printed.switchMode_WRONG_mode mode]
      ∧ ((armcpu_switchMode armcpu mode s).2.core armcpu).R 13 = (s.core armcpu).R 13
      ∧ ((armcpu_switchMode armcpu mode s).2.core armcpu).R 14 = (s.core armcpu).R 14
      ∧ ((armcpu_switchMode armcpu mode s).2.core armcpu).SPSR = (s.core armcpu).SPSR
      ∧ (recognisedMode (s.core armcpu).CPSR.mode = true →
          bankR13 (s.core armcpu).CPSR.mode ((armcpu_switchMode armcpu mode s).2.core armcpu)
              = (s.core armcpu).R 13
            ∧ bankR14 (s.core armcpu).CPSR.mode
                ((armcpu_switchMode armcpu mode s).2.core armcpu)
              = (s.core armcpu).R 14)
      ∧ (privilegedMode (s.core armcpu).CPSR.mode = true →
          bankSPSR (s.core armcpu).CPSR.mode ((armcpu_switchMode armcpu mode s).2.core armcpu)
            = (s.core armcpu).SPSR)
      ∧ ((s.core armcpu).CPSR.mode = FIQ →
          ((armcpu_switchMode armcpu mode s).2.core armcpu).R8_fiq = (s.core armcpu).R 8
            ∧ ((armcpu_switchMode armcpu mode s).2.core armcpu).R9_fiq = (s.core armcpu).R 9
            ∧ ((armcpu_switchMode armcpu mode s).2.core armcpu).R10_fiq = (s.core armcpu).R 10
            ∧ ((armcpu_switchMode armcpu mode s).2.core armcpu).R11_fiq = (s.core armcpu).R 11
            ∧ ((armcpu_switchMode armcpu mode s).2.core armcpu).R12_fiq
                = (s.core armcpu).R 12)
      ∧ (¬((s.core armcpu).CPSR.mode = USR ∨ (s.core armcpu).CPSR.mode = SYS) →
          ((armcpu_switchMode armcpu mode s).2.core armcpu).R13_usr = (s.core armcpu).R13_usr
            ∧ ((armcpu_switchMode armcpu mode s).2.core armcpu).R14_usr
                = (s.core armcpu).R14_usr)
      ∧ ((s.core armcpu).CPSR.mode ≠ FIQ →
          ((armcpu_switchMode armcpu mode s).2.core armcpu).R8_fiq = (s.core armcpu).R8_fiq
            ∧ ((armcpu_switchMode armcpu mode s).2.core armcpu).R9_fiq = (s.core armcpu).R9_fiq
            ∧ ((armcpu_switchMode armcpu mode s).2.core armcpu).R10_fiq
                = (s.core armcpu).R10_fiq
            ∧ ((armcpu_switchMode armcpu mode s).2.core armcpu).R11_fiq
                = (s.core armcpu).R11_fiq
            ∧ ((armcpu_switchMode armcpu mode s).2.core armcpu).R12_fiq
                = (s.core armcpu).R12_fiq
            ∧ ((armcpu_switchMode armcpu mode s).2.core armcpu).R13_fiq
                = (s.core armcpu).R13_fiq
            ∧ ((armcpu_switchMode armcpu mode s).2.core armcpu).R14_fiq
                = (s.core armcpu).R14_fiq
            ∧ ((armcpu_switchMode armcpu mode s).2.core armcpu).SPSR_fiq
                = (s.core armcpu).SPSR_fiq)
      ∧ ((s.core armcpu).CPSR.mode ≠ IRQ →
          ((armcpu_switchMode armcpu mode s).2.core armcpu).R13_irq = (s.core armcpu).R13_irq
            ∧ ((armcpu_switchMode armcpu mode s).2.core armcpu).R14_irq
                = (s.core armcpu).R14_irq
            ∧ ((armcpu_switchMode armcpu mode s).2.core armcpu).SPSR_irq
                = (s.core armcpu).SPSR_irq)
      ∧ ((s.core armcpu).CPSR.mode ≠ SVC →
          ((armcpu_switchMode armcpu mode s).2.core armcpu).R13_svc = (s.core armcpu).R13_svc
            ∧ ((armcpu_switchMode armcpu mode s).2.core armcpu).R14_svc
                = (s.core armcpu).R14_svc
            ∧ ((armcpu_switchMode armcpu mode s).2.core armcpu).SPSR_svc
                = (s.core armcpu).SPSR_svc)
      ∧ ((s.core armcpu).CPSR.mode ≠ ABT →
          ((armcpu_switchMode armcpu mode s).2.core armcpu).R13_abt = (s.core armcpu).R13_abt
            ∧ ((armcpu_switchMode armcpu mode s).2.core armcpu).R14_abt
                = (s.core armcpu).R14_abt
            ∧ ((armcpu_switchMode armcpu mode s).2.core armcpu).SPSR_abt
                = (s.core armcpu).SPSR_abt)
      ∧ ((s.core armcpu).CPSR.mode ≠ UND →
          ((armcpu_switchMode armcpu mode s).2.core armcpu).R13_und = (s.core armcpu).R13_und
            ∧ ((armcpu_switchMode armcpu mode s).2.core armcpu).R14_und
                = (s.core armcpu).R14_und
            ∧ ((armcpu_switchMode armcpu mode s).2.core armcpu).SPSR_und
                = (s.core armcpu).SPSR_und) := by
  refine ⟨printed_switchMode_unrecognised armcpu mode s h, ?_⟩
  rw [core_switchMode]
  unfold switchMode_core
  rw [switchMode_load_unrecognised mode _ h]
  generalize hM : (s.core armcpu).CPSR.mode = M
  simp only [recognisedMode_iff, privilegedMode_iff]
  unfold switchMode_save
  split_ifs with h1 h2 h3 h4 h5 h6
  · rcases h1 with rfl | rfl <;>
      simp [bankR13, bankR14, bankSPSR, USR, FIQ, IRQ, SVC, ABT, UND, SYS]
  · subst h2
    simp [bankR13, bankR14, bankSPSR, USR, FIQ, IRQ, SVC, ABT, UND, SYS, writeR]
  · subst h3
    simp [bankR13, bankR14, bankSPSR, USR, FIQ, IRQ, SVC, ABT, UND, SYS]
  · subst h4
    simp [bankR13, bankR14, bankSPSR, USR, FIQ, IRQ, SVC, ABT, UND, SYS]
  · subst h5
    simp [bankR13, bankR14, bankSPSR, USR, FIQ, IRQ, SVC, ABT, UND, SYS]
  · subst h6
    simp [bankR13, bankR14, bankSPSR, USR, FIQ, IRQ, SVC, ABT, UND, SYS]
  · simp only [not_or] at h1
    simp [h1.1, h1.2, h2, h3, h4, h5, h6]

/-- C18, at a concrete input: the first core in `IRQ` mode switched to the
value `0x00`. -/
theorem armcpu_switchMode_unrecognised_witness :
    recognisedMode 0x00 = false
      ∧ (armcpu_switchMode armcpu_ptr.NDS_ARM9 0x00 (sampleNDS IRQ false 0x02000004)).2.printed
          = (sampleNDS IRQ false 0x02000004).printed ++ [Printed.switchMode_WRONG_mode 0x00]
      ∧ ((armcpu_switchMode armcpu_ptr.NDS_ARM9 0x00
            (sampleNDS IRQ false 0x02000004)).2.core armcpu_ptr.NDS_ARM9).R 13
          = ((sampleNDS IRQ false 0x02000004).core armcpu_ptr.NDS_ARM9).R 13 :=
  ⟨by decide,
    (armcpu_switchMode_unrecognised armcpu_ptr.NDS_ARM9 0x00 (sampleNDS IRQ false 0x02000004)
      (by decide)).1,
    (armcpu_switchMode_unrecognised armcpu_ptr.NDS_ARM9 0x00 (sampleNDS IRQ false 0x02000004)
      (by decide)).2.1⟩

/-- C20: the predicates `test_EQ` ... `test_AL`, selected through
`TEST_COND2`, give the ARM condition table for every status register:
encodings 0 to 14 are `Z`, not `Z`, `C`, not `C`, `N`, not `N`, `V`, not `V`,
`C` and not `Z`, `Z` or not `C`, `N = V`, `N ≠ V`, not `Z` and `N = V`, `Z` or
`N ≠ V`, true; encoding 15 never passes; and each odd encoding below 14 is the
negation of the even encoding before it. -/
theorem TEST_COND2_table (CPSR : Status_Reg) :
    TEST_COND2 0 CPSR = CPSR.Z
      ∧ TEST_COND2 1 CPSR = !CPSR.Z
      ∧ TEST_COND2 2 CPSR = CPSR.C
      ∧ TEST_COND2 3 CPSR = !CPSR.C
      ∧ TEST_COND2 4 CPSR = CPSR.N
      ∧ TEST_COND2 5 CPSR = !CPSR.N
      ∧ TEST_COND2 6 CPSR = CPSR.V
      ∧ TEST_COND2 7 CPSR = !CPSR.V
      ∧ TEST_COND2 8 CPSR = (CPSR.C && !CPSR.Z)
      ∧ TEST_COND2 9 CPSR = (CPSR.Z || !CPSR.C)
      ∧ TEST_COND2 10 CPSR = decide (CPSR.N = CPSR.V)
      ∧ TEST_COND2 11 CPSR = decide (CPSR.N ≠ CPSR.V)
      ∧ TEST_COND2 12 CPSR = (!CPSR.Z && decide (CPSR.N = CPSR.V))
      ∧ TEST_COND2 13 CPSR = (CPSR.Z || decide (CPSR.N ≠ CPSR.V))
      ∧ TEST_COND2 14 CPSR = true
      ∧ TEST_COND2 15 CPSR = false
      ∧ (∀ k : Nat, k < 7 → TEST_COND2 (2 * k + 1) CPSR = !TEST_COND2 (2 * k) CPSR) := by
  obtain ⟨mode, T, F, I, RAZ, Q, V, C, Z, N⟩ := CPSR
  refine ⟨?_, ?_, ?_, ?_, ?_, ?_, ?_, ?_, ?_, ?_, ?_, ?_, ?_, ?_, ?_, ?_, ?_⟩
  · rfl
  · rfl
  · rfl
  · rfl
  · rfl
  · rfl
  · rfl
  · rfl
  · rfl
  · rfl
  · cases N <;> cases V <;> rfl
  · cases N <;> cases V <;> rfl
  · cases Z <;> cases N <;> cases V <;> rfl
  · cases Z <;> cases N <;> cases V <;> rfl
  · rfl
  · rfl
  · intro k hk
    interval_cases k <;> cases Z <;> cases C <;> cases N <;> cases V <;> rfl

/-- C19: `armcpu_Wait4IRQ` returns 1 and changes nothing but `waitIRQ` and
`halt_IE_and_IF`, which it sets; a set `waitIRQ` stays set, in every core,
under every sequence of the other operations (`armcpu_switchMode`,
`armcpu_prefetch`, `armcpu_exception` of any kind, `armcpu_Wait4IRQ`,
`TRAPUNDEF` and the operations of the control interface); and
`armcpu_irqException` clears it. -/
theorem waitIRQ_stays_set (mem : MemoryLayer) (cpu : armcpu_ptr) (s : NDS) :
    (armcpu_Wait4IRQ cpu s).1 = 1
      ∧ (armcpu_Wait4IRQ cpu s).2
          = s.setCore cpu { s.core cpu with waitIRQ := true, halt_IE_and_IF := true }
      ∧ (∀ (ops : List CoreOp) (r : armcpu_ptr), (s.core r).waitIRQ = true →
          ((runOps mem ops s).core r).waitIRQ = true)
      ∧ ((armcpu_irqException mem cpu s).2.core cpu).waitIRQ = false := by
  refine ⟨rfl, ?_, fun ops r h => waitIRQ_runOps mem ops s r h, waitIRQ_irqException mem cpu s⟩
  cases cpu <;> rfl

end Desmume
